import Mathlib

/-!
# Scrollable page (`lv_objx/lv_page.c`): clamp, scrollbar geometry, focus

A shallow embedding of the page widget of `lv_page.c`; the slider of `lv_slider.c` follows in the
namespace `LvSlider`.

Conventions of the embedding

* `cord_t` values are mathematical integers (`Int`).  The declaration of `cord_t` lives in a
  header outside the source files; all results below are about executions in which no
  intermediate value leaves the range of the machine type.
* C's `/` on integers truncates toward zero: it is `Int.tdiv`.  A zero divisor is undefined in C;
  `lv_page_sb_refresh_divisors_pos` shows that the divisors of `lv_page_sb_refresh` are positive
  whenever they are used and the page has a non-negative extent.
* The widget is one record `Page`: the coordinates of the page and of its scrollable child
  (`ext->scrl`), the page style paddings and the fields of `lv_page_ext_t`.  Calls that leave the
  file are recorded: `inv_areas` lists the arguments of `lv_inv_area` in call order, `anims` the
  animations handed to `anim_create`.
* Every handler first runs the ancestor handler `lv_cont_signal`; the embedding covers the
  page specific part that runs when the ancestor reports the object as still valid.
-/

namespace LvPage

/-! ## Areas -/

/-- Rectangle with inclusive corner coordinates (`area_t`). -/
structure area_t where
  x1 : Int
  y1 : Int
  x2 : Int
  y2 : Int
deriving DecidableEq, Repr

/-- Modelled from the spec: `area_get_width` of the base library header (not among the source
files); the extent of an inclusive rectangle on the x axis. -/
def area_get_width (a : area_t) : Int := a.x2 - a.x1 + 1

/-- Modelled from the spec: `area_get_height` of the base library header (not among the source
files); the extent of an inclusive rectangle on the y axis. -/
def area_get_height (a : area_t) : Int := a.y2 - a.y1 + 1

/-- Modelled from the spec: `area_set_width` of the base library (not among the source files);
keeps the near edge and moves the far edge so that the extent is `w`. -/
def area_set_width (a : area_t) (w : Int) : area_t := { a with x2 := a.x1 + w - 1 }

/-- Modelled from the spec: `area_set_height` of the base library (not among the source files);
keeps the near edge and moves the far edge so that the extent is `h`. -/
def area_set_height (a : area_t) (h : Int) : area_t := { a with y2 := a.y1 + h - 1 }

/-- Modelled from the spec: `area_set_pos` of the base library (not among the source files);
moves the rectangle to `(x, y)` and keeps both extents. -/
def area_set_pos (a : area_t) (x y : Int) : area_t :=
  let w := area_get_width a
  let h := area_get_height a
  area_set_height (area_set_width { a with x1 := x, y1 := y } w) h

/-- Modelled from the spec: the macro `MATH_MAX` of `math_base.h` (not among the source files). -/
def MATH_MAX (a b : Int) : Int := if a > b then a else b

/-! ## Widget state -/

/-- Scrollbar modes (`lv_page_sb_mode_t`). -/
inductive lv_page_sb_mode_t where
  | OFF
  | ON
  | DRAG
  | AUTO
deriving DecidableEq, Repr

/-- Signals the handlers of `lv_page.c` switch on; `OTHER` stands for every signal that falls
into the `default` branch, `RELEASED` carries the answer of `lv_dispi_is_dragging`. -/
inductive lv_signal_t where
  | CHILD_CHG
  | STYLE_CHG
  | CORD_CHG
  | PRESSED
  | RELEASED (dragging : Bool)
  | DRAG_BEGIN
  | DRAG_END
  | OTHER
deriving DecidableEq, Repr

/-- Animation descriptor filled in by `lv_page_focus` (the fields it sets to a value that
depends on the call). -/
structure anim_t where
  start : Int
  end_ : Int
  time : Nat
deriving DecidableEq, Repr

/-- Page together with its scrollable child.

* `cords` is `page->cords`, `scrl` is `ext->scrl->cords` (absolute coordinates);
* `hpad`, `vpad` are the paddings of the page style;
* `sb_mode`, `sb_width`, `sbh`, `sbv`, `sbh_draw`, `sbv_draw` are the fields of `lv_page_ext_t`
  (the two draw flags are one-bit fields);
* `inv_areas` and `anims` record the calls of `lv_inv_area` and `anim_create`. -/
structure Page where
  cords : area_t
  scrl : area_t
  hpad : Int
  vpad : Int
  sb_mode : lv_page_sb_mode_t
  sb_width : Int
  sbh : area_t
  sbv : area_t
  sbh_draw : Bool
  sbv_draw : Bool
  inv_areas : List area_t
  anims : List anim_t
deriving DecidableEq, Repr

/-- Modelled from the spec: `lv_obj_get_x` of the widget base (`lv_obj.c`, not among the source
files) for the scrollable: its x position relative to the parent page. -/
def lv_obj_get_x (s : Page) : Int := s.scrl.x1 - s.cords.x1

/-- Modelled from the spec: `lv_obj_get_y` of the widget base (`lv_obj.c`, not among the source
files) for the scrollable: its y position relative to the parent page. -/
def lv_obj_get_y (s : Page) : Int := s.scrl.y1 - s.cords.y1

/-- Coordinates of the scrollable after it is put at the parent-relative position `(x, y)`;
the size is kept. -/
def scrl_move (s : Page) (x y : Int) : Page :=
  { s with scrl := area_set_pos s.scrl (s.cords.x1 + x) (s.cords.y1 + y) }

/-- Modelled from the spec: `lv_obj_set_pos` of the widget base (`lv_obj.c`, not among the
source files) applied to the scrollable.  The new parent-relative position is applied and the
object is told about it through its own signal function with "bounds changed", which is how the
clamp is entered again; `signal_f` is that handler. -/
def lv_obj_set_pos (signal_f : Page → Option Page) (s : Page) (x y : Int) : Option Page :=
  signal_f (scrl_move s x y)

/-! ## Scrollbar refresh (`lv_page_sb_refresh`) -/

/-- The conversion written out before each `lv_inv_area` call (lines 607-611, 615-619, 658-662,
666-670, 296-300, 305-309): `x1, y1` are shifted by the page's `x1, y1` and `x2, y2` by the page's
`x2, y2`. -/
def sb_area_tmp (page sb : area_t) : area_t :=
  { x1 := sb.x1 + page.x1, y1 := sb.y1 + page.y1, x2 := sb.x2 + page.x2, y2 := sb.y2 + page.y2 }

/-- The block "invalidate the scrollbar areas" (lines 606-621 and 657-672): each bar whose draw
flag is set has its converted area passed to `lv_inv_area`, horizontal first. -/
def sb_invalidate (s : Page) : Page :=
  let s := if s.sbh_draw then { s with inv_areas := s.inv_areas ++ [sb_area_tmp s.cords s.sbh] } else s
  if s.sbv_draw then { s with inv_areas := s.inv_areas ++ [sb_area_tmp s.cords s.sbv] } else s

/-- Lines 623-637: the horizontal scrollbar. -/
def sb_refresh_hor (s : Page) : Page :=
  let scrl_w := area_get_width s.scrl
  let hpad := s.hpad
  let obj_w := area_get_width s.cords
  let obj_h := area_get_height s.cords
  let sbh_pad := MATH_MAX s.sb_width s.hpad
  if scrl_w ≤ obj_w - 2 * hpad then
    let sbh := area_set_width s.sbh (obj_w - 2 * sbh_pad)
    let sbh := area_set_pos sbh sbh_pad (obj_h - s.sb_width)
    { s with sbh := sbh,
             sbh_draw := if s.sb_mode = .AUTO then false else s.sbh_draw }
  else
    let size_tmp := Int.tdiv (obj_w * (obj_w - (2 * sbh_pad))) (scrl_w + 2 * hpad)
    let sbh := area_set_width s.sbh size_tmp
    let sbh := area_set_pos sbh
      (sbh_pad + Int.tdiv (-(lv_obj_get_x s - hpad) * (obj_w - size_tmp - 2 * sbh_pad))
                          (scrl_w + 2 * hpad - obj_w))
      (obj_h - s.sb_width)
    { s with sbh := sbh,
             sbh_draw := if s.sb_mode = .AUTO then true else s.sbh_draw }

/-- Lines 639-654: the vertical scrollbar. -/
def sb_refresh_ver (s : Page) : Page :=
  let scrl_h := area_get_height s.scrl
  let vpad := s.vpad
  let obj_w := area_get_width s.cords
  let obj_h := area_get_height s.cords
  let sbv_pad := MATH_MAX s.sb_width s.vpad
  if scrl_h ≤ obj_h - 2 * vpad then
    let sbv := area_set_height s.sbv (obj_h - 2 * sbv_pad)
    let sbv := area_set_pos sbv (obj_w - s.sb_width) sbv_pad
    { s with sbv := sbv,
             sbv_draw := if s.sb_mode = .AUTO then false else s.sbv_draw }
  else
    let size_tmp := Int.tdiv (obj_h * (obj_h - (2 * sbv_pad))) (scrl_h + 2 * vpad)
    let sbv := area_set_height s.sbv size_tmp
    let sbv := area_set_pos sbv (obj_w - s.sb_width)
      (sbv_pad + Int.tdiv (-(lv_obj_get_y s - vpad) * (obj_h - size_tmp - 2 * sbv_pad))
                          (scrl_h + 2 * vpad - obj_h))
    { s with sbv := sbv,
             sbv_draw := if s.sb_mode = .AUTO then true else s.sbv_draw }

/-- Refresh the position and size of the scroll bars (`lv_page_sb_refresh`, lines 577-673). -/
def lv_page_sb_refresh (s : Page) : Page :=
  if s.sb_mode = .OFF then s
  else
    let s := if s.sb_mode = .ON then { s with sbh_draw := true, sbv_draw := true } else s
    let s := sb_invalidate s
    let s := sb_refresh_hor s
    let s := sb_refresh_ver s
    sb_invalidate s

/-- Set the scroll bar width (`lv_page_set_sb_width`, lines 367-375); the closing `lv_obj_inv`
of the whole page belongs to the widget base and is not recorded. -/
def lv_page_set_sb_width (s : Page) (sb_width : Int) : Page :=
  let s := { s with sb_width := sb_width }
  let s := { s with sbh := area_set_height s.sbh s.sb_width }
  let s := { s with sbv := area_set_width s.sbv s.sb_width }
  lv_page_sb_refresh s

/-- The rectangles `lv_page_design` passes to `lv_draw_rect` in mode `LV_DESIGN_DRAW_POST`
(lines 547-567): every coordinate of a visible bar is shifted by the page's `x1, y1`. -/
def lv_page_design_sb (s : Page) : List area_t :=
  let abs (sb : area_t) : area_t :=
    { x1 := sb.x1 + s.cords.x1, y1 := sb.y1 + s.cords.y1,
      x2 := sb.x2 + s.cords.x1, y2 := sb.y2 + s.cords.y1 }
  (if s.sbh_draw then [abs s.sbh] else []) ++ (if s.sbv_draw then [abs s.sbv] else [])

/-! ## Signal function of the scrollable (`lv_scrl_signal`) -/

/-- Locals of the `LV_SIGNAL_CORD_CHG` branch at line 272. -/
structure clamp_t where
  new_x : Int
  new_y : Int
  refr_x : Bool
  refr_y : Bool
deriving DecidableEq, Repr

/-- Lines 232-253: the x axis of the clamp, giving `new_x` and `refr_x`. -/
def scrl_clamp_x (s : Page) : Int × Bool :=
  let new_x := lv_obj_get_x s
  let obj_cords := s.scrl
  let page_cords := s.cords
  let hpad := s.hpad
  if area_get_width obj_cords + 2 * hpad < area_get_width page_cords then
    if obj_cords.x1 ≠ page_cords.x1 + hpad then (hpad, true) else (new_x, false)
  else
    let r : Int × Bool :=
      if obj_cords.x2 < page_cords.x2 - hpad then
        (area_get_width page_cords - area_get_width obj_cords - hpad, true)
      else (new_x, false)
    if obj_cords.x1 > page_cords.x1 + hpad then (hpad, true) else r

/-- Lines 255-271: the y axis of the clamp, giving `new_y` and `refr_y`. -/
def scrl_clamp_y (s : Page) : Int × Bool :=
  let new_y := lv_obj_get_y s
  let obj_cords := s.scrl
  let page_cords := s.cords
  let vpad := s.vpad
  if area_get_height obj_cords + 2 * vpad < area_get_height page_cords then
    if obj_cords.y1 ≠ page_cords.y1 + vpad then (vpad, true) else (new_y, false)
  else
    let r : Int × Bool :=
      if obj_cords.y2 < page_cords.y2 - vpad then
        (area_get_height page_cords - area_get_height obj_cords - vpad, true)
      else (new_y, false)
    if obj_cords.y1 > page_cords.y1 + vpad then (vpad, true) else r

/-- Lines 232-271: both axes of the clamp. -/
def scrl_clamp (s : Page) : clamp_t :=
  let x := scrl_clamp_x s
  let y := scrl_clamp_y s
  { new_x := x.1, new_y := y.1, refr_x := x.2, refr_y := y.2 }

/-- Lines 279-290: the `LV_SIGNAL_DRAG_BEGIN` branch. -/
def scrl_drag_begin (s : Page) : Page :=
  if s.sb_mode = .DRAG then
    let sbh_pad := MATH_MAX s.sb_width s.hpad
    let sbv_pad := MATH_MAX s.sb_width s.vpad
    let s := if area_get_height s.sbv < area_get_height s.scrl - 2 * sbv_pad
             then { s with sbv_draw := true } else s
    if area_get_width s.sbh < area_get_width s.scrl - 2 * sbh_pad
    then { s with sbh_draw := true } else s
  else s

/-- Lines 292-314: the `LV_SIGNAL_DRAG_END` branch. -/
def scrl_drag_end (s : Page) : Page :=
  if s.sb_mode = .DRAG then
    let s := if s.sbh_draw
             then { s with inv_areas := s.inv_areas ++ [sb_area_tmp s.cords s.sbh],
                           sbh_draw := false }
             else s
    if s.sbv_draw
    then { s with inv_areas := s.inv_areas ++ [sb_area_tmp s.cords s.sbv], sbv_draw := false }
    else s
  else s

/-- Signal function of the scrollable part of a page (`lv_scrl_signal`, lines 207-334).

`lv_obj_set_pos` sends `LV_SIGNAL_CORD_CHG` to the scrollable again, so the handler is
re-entrant; `fuel` bounds the nesting depth and `none` means the bound was hit.  The
`PRESSED`/`RELEASED` branches only call the user's actions, which do not belong to the state. -/
def lv_scrl_signal : Nat → Page → lv_signal_t → Option Page
  | 0, _, _ => none
  | fuel + 1, s, .CORD_CHG =>
    let c := scrl_clamp s
    let moved :=
      if c.refr_x ≠ false ∨ c.refr_y ≠ false then
        lv_obj_set_pos (fun s1 => lv_scrl_signal fuel s1 .CORD_CHG) s c.new_x c.new_y
      else some s
    moved.map lv_page_sb_refresh
  | _ + 1, s, .DRAG_BEGIN => some (scrl_drag_begin s)
  | _ + 1, s, .DRAG_END => some (scrl_drag_end s)
  | _ + 1, s, _ => some s

/-! ## Focus (`lv_page_focus`) -/

/-- Line 431 of `lv_page_focus`: `top_err`, how far the object `obj` (its `obj->cords`) sticks out
above the page. -/
def focus_top_err (s : Page) (obj : area_t) : Int :=
  let obj_y := obj.y1 - s.scrl.y1
  let scrlable_y := lv_obj_get_y s
  let top_err := -(scrlable_y + obj_y)
  top_err

/-- Line 432 of `lv_page_focus`: `bot_err`, how far the object `obj` sticks out below the
page. -/
def focus_bot_err (s : Page) (obj : area_t) : Int :=
  let obj_y := obj.y1 - s.scrl.y1
  let obj_h := area_get_height obj
  let scrlable_y := lv_obj_get_y s
  let page_h := area_get_height s.cords
  let bot_err := scrlable_y + obj_y + obj_h - page_h
  bot_err

/-- Lines 426-452 of `lv_page_focus`: the position `scrlable_y` to write, or `none` when the
function returns at "already in focus".  `obj` is `obj->cords`, `style_scrl_vpad` the vertical
padding of the scrollable's style. -/
def lv_page_focus_y (s : Page) (obj : area_t) (style_scrl_vpad : Int) : Option Int :=
  let obj_y := obj.y1 - s.scrl.y1
  let obj_h := area_get_height obj
  let page_h := area_get_height s.cords
  let top_err := focus_top_err s obj
  let bot_err := focus_bot_err s obj
  if (obj_h ≤ page_h ∧ top_err > 0) ∨ (obj_h > page_h ∧ top_err < bot_err) then
    some (-(obj_y - style_scrl_vpad - s.vpad) + style_scrl_vpad)
  else if (obj_h ≤ page_h ∧ bot_err > 0) ∨ (obj_h > page_h ∧ top_err ≥ bot_err) then
    some (-obj_y + (page_h - obj_h) - style_scrl_vpad)
  else none

/-- Focus on an object (`lv_page_focus`, lines 419-471).  With `anim_time = 0` the position is
written with `lv_obj_set_y`, that is `lv_obj_set_pos` with the current x, which runs the signal
function of the scrollable (`fuel` as in `lv_scrl_signal`); otherwise an animation from the
current y to the new one is created. -/
def lv_page_focus (fuel : Nat) (s : Page) (obj : area_t) (style_scrl_vpad : Int)
    (anim_time : Nat) : Option Page :=
  match lv_page_focus_y s obj style_scrl_vpad with
  | none => some s
  | some scrlable_y =>
    if anim_time = 0 then
      lv_obj_set_pos (fun s1 => lv_scrl_signal fuel s1 .CORD_CHG) s (lv_obj_get_x s) scrlable_y
    else
      some { s with anims := s.anims ++
        [{ start := lv_obj_get_y s, end_ := scrlable_y, time := anim_time }] }

/-- Modelled from the spec: a descendant of the content surface keeps its position relative to
the surface when the surface moves (`lv_obj_set_pos` of `lv_obj.c`, not among the source files,
moves the children along).  `old` and `new` are the surface's coordinates before and after the
move, `obj` the descendant's coordinates before. -/
def child_follow (old new : area_t) (obj : area_t) : area_t :=
  { x1 := obj.x1 + (new.x1 - old.x1), y1 := obj.y1 + (new.y1 - old.y1),
    x2 := obj.x2 + (new.x1 - old.x1), y2 := obj.y2 + (new.y1 - old.y1) }

/-! ## Signal function of the page (`lv_page_signal`) -/

/-- Entry of a child list: the identity of the object and its `LV_PROTECT_PARENT` flag
(`lv_obj_is_protected (child, LV_PROTECT_PARENT)`). -/
structure lv_obj_child_t where
  id : Nat
  protect_parent : Bool
deriving DecidableEq, Repr

/-- Page widget with the child lists of the page and of its scrollable, head first. -/
structure PageObj where
  page : Page
  child_ll : List lv_obj_child_t
  scrl_child_ll : List lv_obj_child_t
deriving DecidableEq, Repr

/-- Successor of `child` in a child list. -/
def ll_get_next : List lv_obj_child_t → lv_obj_child_t → Option lv_obj_child_t
  | [], _ => none
  | x :: xs, child => if x.id = child.id then xs.head? else ll_get_next xs child

/-- Modelled from the spec: `lv_obj_get_child` of the widget base (`lv_obj.c`, not among the
source files), the child-tree navigation: the first child for `NULL`, otherwise the child after
the given one. -/
def lv_obj_get_child (ll : List lv_obj_child_t) :
    Option lv_obj_child_t → Option lv_obj_child_t
  | none => ll.head?
  | some child => ll_get_next ll child

/-- Modelled from the spec: `lv_obj_set_parent (tmp, ext->scrl)` of the widget base (`lv_obj.c`,
not among the source files): the child leaves the page's child list and becomes a child of the
content surface. -/
def lv_obj_set_parent (o : PageObj) (tmp : lv_obj_child_t) : PageObj :=
  { o with child_ll := o.child_ll.filter (fun c => decide (c.id ≠ tmp.id)),
           scrl_child_ll := tmp :: o.scrl_child_ll }

/-- The `while` loop of the `LV_SIGNAL_CHILD_CHG` branch (lines 144-152).  `child` is the loop
variable (`none` for `NULL`), `seen` collects the children the loop body has run on, in order;
`fuel` bounds the number of iterations and `none` means the bound was hit. -/
def page_child_chg_loop : Nat → PageObj → Option lv_obj_child_t → List lv_obj_child_t →
    Option (PageObj × List lv_obj_child_t)
  | _, o, none, seen => some (o, seen)
  | 0, _, some _, _ => none
  | fuel + 1, o, some child, seen =>
    if child.protect_parent = false then
      let tmp := child
      let child := lv_obj_get_child o.child_ll (some child)
      page_child_chg_loop fuel (lv_obj_set_parent o tmp) child (seen ++ [tmp])
    else
      page_child_chg_loop fuel o (lv_obj_get_child o.child_ll (some child)) (seen ++ [child])

/-- Signal function of the page (`lv_page_signal`, lines 129-199).  `param` is the signal's
parameter where the branch reads it as an area (`none` for `NULL`); `ext->scrl` is not `NULL` once
the page is created.  `fuel` bounds the loop of the child branch and the nesting of
`lv_scrl_signal`.  The `PRESSED`/`RELEASED` branches only call the user's actions, which do not
belong to the state. -/
def lv_page_signal (fuel : Nat) (o : PageObj) (sign : lv_signal_t) (param : Option area_t) :
    Option PageObj :=
  match sign with
  | .CHILD_CHG =>
    (page_child_chg_loop fuel o (lv_obj_get_child o.child_ll none) []).map Prod.fst
  | .STYLE_CHG =>
    let page :=
      if o.page.sb_mode = lv_page_sb_mode_t.ON then
        { o.page with sbh_draw := true, sbv_draw := true }
      else
        { o.page with sbh_draw := false, sbv_draw := false }
    some { o with page := lv_page_sb_refresh page }
  | .CORD_CHG =>
    match param with
    | none => none
    | some param =>
      if area_get_width o.page.cords ≠ area_get_width param ∨
          area_get_height o.page.cords ≠ area_get_height param then
        (lv_scrl_signal fuel o.page .CORD_CHG).map fun page =>
          { o with page :=
              if page.sbh_draw ≠ false ∨ page.sbv_draw ≠ false then lv_page_sb_refresh page
              else page }
      else some o
  | _ => some o

/-- Set the scroll bar mode (`lv_page_set_sb_mode`, lines 382-388); the closing `lv_obj_inv` of
the whole page belongs to the widget base and is not recorded. -/
def lv_page_set_sb_mode (fuel : Nat) (o : PageObj) (sb_mode : lv_page_sb_mode_t) :
    Option PageObj :=
  let o := { o with page := { o.page with sb_mode := sb_mode } }
  lv_page_signal fuel o .STYLE_CHG none

/-! ## Proof devices -/

/-- The scrollable's geometry once the clamp branch has applied its decision: moved to
`(new_x, new_y)` when either axis asked for it (line 272), untouched otherwise. -/
def scrl_settle (s : Page) : Page :=
  let c := scrl_clamp s
  if c.refr_x ≠ false ∨ c.refr_y ≠ false then scrl_move s c.new_x c.new_y else s

/-- On the x axis the scrollable obeys the clamp: anchored at `hpad` when it is narrower than the
page minus the paddings, otherwise no gap on either side. -/
def clamped_x (s : Page) : Prop :=
  if area_get_width s.scrl + 2 * s.hpad < area_get_width s.cords then
    s.scrl.x1 = s.cords.x1 + s.hpad
  else s.scrl.x1 ≤ s.cords.x1 + s.hpad ∧ s.cords.x2 - s.hpad ≤ s.scrl.x2

/-- On the y axis the scrollable obeys the clamp: anchored at `vpad` when it is lower than the
page minus the paddings, otherwise no gap on either side. -/
def clamped_y (s : Page) : Prop :=
  if area_get_height s.scrl + 2 * s.vpad < area_get_height s.cords then
    s.scrl.y1 = s.cords.y1 + s.vpad
  else s.scrl.y1 ≤ s.cords.y1 + s.vpad ∧ s.cords.y2 - s.vpad ≤ s.scrl.y2

instance (s : Page) : Decidable (clamped_x s) := by unfold clamped_x; infer_instance

instance (s : Page) : Decidable (clamped_y s) := by unfold clamped_y; infer_instance

/-! ## Concrete pages -/

/-- Page of 200 x 100 at the origin, paddings 5, scrollbar width 10, mode AUTO, with a content
surface of 50 x 40 that was dragged away from the corner. -/
def page_small : Page :=
  { cords := ⟨0, 0, 199, 99⟩, scrl := ⟨30, 70, 79, 109⟩, hpad := 5, vpad := 5,
    sb_mode := lv_page_sb_mode_t.AUTO, sb_width := 10,
    sbh := ⟨0, 0, 0, 9⟩, sbv := ⟨0, 0, 9, 0⟩, sbh_draw := false, sbv_draw := false,
    inv_areas := [], anims := [] }

/-- The same page with a content surface of 400 x 300 that was dragged 50 pixels into the page
on both axes. -/
def page_big : Page :=
  { page_small with scrl := ⟨50, 50, 449, 349⟩ }

/-- The example of the spec: viewport 200 x 100, padding 5, scrollbar thickness 10, content
400 x 60 at scroll-x 0, mode AUTO, the bars not yet computed. -/
def page_example : Page :=
  { cords := ⟨0, 0, 199, 99⟩, scrl := ⟨0, 5, 399, 64⟩, hpad := 5, vpad := 5,
    sb_mode := lv_page_sb_mode_t.AUTO, sb_width := 10,
    sbh := ⟨0, 0, 0, 9⟩, sbv := ⟨0, 0, 9, 0⟩, sbh_draw := false, sbv_draw := false,
    inv_areas := [], anims := [] }

/-- The example page with the scrollbars switched off. -/
def page_example_off : Page :=
  { page_example with sb_mode := lv_page_sb_mode_t.OFF }

/-- The example page with a content surface one pixel wider (401 x 60). -/
def page_example_401 : Page :=
  { page_example with scrl := ⟨0, 5, 400, 64⟩ }

/-- Page of 100 x 100, paddings 5, mode AUTO, holding a content surface of 8000 x 60 that sits
clamped at the start; the scrollbar width is still to be set. -/
def page_long : Page :=
  { cords := ⟨0, 0, 99, 99⟩, scrl := ⟨5, 5, 8004, 64⟩, hpad := 5, vpad := 5,
    sb_mode := lv_page_sb_mode_t.AUTO, sb_width := 0,
    sbh := ⟨0, 0, 0, 0⟩, sbv := ⟨0, 0, 0, 0⟩, sbh_draw := false, sbv_draw := false,
    inv_areas := [], anims := [] }

/-- Page of 200 x 100 in mode DRAG, paddings 5, scrollbar width 10, content 400 x 95 clamped at
the start, with the bars as `lv_page_sb_refresh` computes them (both hidden). -/
def page_drag : Page :=
  lv_page_sb_refresh
    { page_example with scrl := ⟨5, 5, 404, 99⟩, sb_mode := lv_page_sb_mode_t.DRAG }

/-- The geometry of `page_drag` (page 200 x 100, content surface 400 x 95 at (5, 5)) in mode
AUTO, after `lv_page_sb_refresh`. -/
def page_drag_auto : Page :=
  lv_page_sb_refresh { page_example with scrl := ⟨5, 5, 404, 99⟩ }

/-- The example page moved so that its top left corner is at (10, 20), the content surface at the
parent-relative position (5, 5). -/
def page_shifted : Page :=
  { page_example with cords := ⟨10, 20, 209, 119⟩, scrl := ⟨15, 25, 414, 84⟩ }

/-- An object of 41 x 31 lying inside the viewport of `page_example`. -/
def obj_inside : area_t := ⟨10, 10, 50, 40⟩

/-- The 200 x 100 page holding a content surface of 400 x 300 that is scrolled 100 pixels down
(parent-relative y = -95). -/
def page_scrolled : Page :=
  { page_example with scrl := ⟨5, -95, 404, 204⟩ }

/-- A target of 40 x 90 on `page_scrolled`, 50 pixels below the top of the content surface, so
that it is cut by the top edge of the viewport. -/
def obj_low : area_t := ⟨15, -45, 54, 44⟩

/-- A target of 40 x 150 on `page_scrolled`, higher than the viewport. -/
def obj_tall : area_t := ⟨15, -45, 54, 104⟩

/-- The example page in mode ON. -/
def page_example_on : Page :=
  { page_example with sb_mode := lv_page_sb_mode_t.ON }

/-- The example page as a widget whose child list holds, head first, a new label (id 3), the
protected content surface (id 0), a protected decoration (id 2) and a new button (id 1); the
content surface has one child already (id 7). -/
def page_obj_example : PageObj :=
  { page := page_example,
    child_ll := [⟨3, false⟩, ⟨0, true⟩, ⟨2, true⟩, ⟨1, false⟩],
    scrl_child_ll := [⟨7, false⟩] }

/-- A page only 10 wide (and 100 high) with paddings 5 and scrollbar width 10, mode AUTO, holding
a content surface of 100 x 60 scrolled to the parent-relative x = -40; the bars carry the
thickness 10. -/
def page_tiny : Page :=
  { cords := ⟨0, 0, 9, 99⟩, scrl := ⟨-40, 5, 59, 64⟩, hpad := 5, vpad := 5,
    sb_mode := lv_page_sb_mode_t.AUTO, sb_width := 10,
    sbh := ⟨0, 0, 0, 9⟩, sbv := ⟨0, 0, 9, 0⟩, sbh_draw := false, sbv_draw := false,
    inv_areas := [], anims := [] }

/-! ## Redraw regions against drawn rectangles -/

/-- The rectangle `outer` covers the rectangle `inner`. -/
def area_contains (outer inner : area_t) : Prop :=
  outer.x1 ≤ inner.x1 ∧ outer.y1 ≤ inner.y1 ∧ inner.x2 ≤ outer.x2 ∧ inner.y2 ≤ outer.y2

instance (outer inner : area_t) : Decidable (area_contains outer inner) := by
  unfold area_contains; infer_instance

/-- The conversion of `lv_page_design` (lines 551-555 and 561-565): all four coordinates of the
local bar rectangle are shifted by the page's `x1, y1`. -/
def sb_area_draw (page sb : area_t) : area_t :=
  { x1 := sb.x1 + page.x1, y1 := sb.y1 + page.y1, x2 := sb.x2 + page.x1, y2 := sb.y2 + page.y1 }

/-- The local rectangles of the bars whose draw flag is set, horizontal first. -/
def visible_bars (s : Page) : List area_t :=
  (if s.sbh_draw then [s.sbh] else []) ++ (if s.sbv_draw then [s.sbv] else [])

end LvPage

/-! # Slider (`lv_objx/lv_slider.c`)

The slider is a bar (`lv_bar`) with a knob.  Coordinates and the fields of the bar are
mathematical integers (the declarations of `cord_t` and of the bar are not among the source
files); the products of lines 124 and 127 are taken in `int32_t`, where they are exact for
16 bit operands.  The local `tmp` of line 115 is an `int16_t`: every assignment to it (lines
124, 127, 128) keeps the low 16 bits of the value (`to_int16`).  A division by zero is undefined in C and is the failure `none` here. -/

namespace LvSlider

open LvPage

/-- Point of the input device (`point_t`). -/
structure point_t where
  x : Int
  y : Int
deriving DecidableEq, Repr

/-- Signals `lv_slider_signal` tests for, with the parameter the branch reads: the point of the
input device for `PRESSING`, the original coordinates for `CORD_CHG`; `OTHER` stands for every
other signal. -/
inductive lv_signal_t where
  | PRESSED
  | PRESSING (p : point_t)
  | PRESS_LOST
  | RELEASED
  | CORD_CHG (param : area_t)
  | REFR_EXT_SIZE
  | OTHER
deriving DecidableEq, Repr

/-- Slider widget.

* `cords`, `ext_size` are `slider->cords` and `slider->ext_size`;
* `act_value`, `min_value`, `max_value` are the fields of the bar (`ext->bar`);
* `tmp_value` is `ext->tmp_value`; `cb` tells whether `ext->cb` is set and `cb_calls` counts its
  invocations;
* `knob_hpad`, `knob_vpad`, `indic_hpad`, `indic_vpad` are the paddings of the knob style and of
  the indicator style. -/
structure Slider where
  cords : area_t
  ext_size : Int
  act_value : Int
  min_value : Int
  max_value : Int
  tmp_value : Int
  cb : Bool
  cb_calls : Nat
  knob_hpad : Int
  knob_vpad : Int
  indic_hpad : Int
  indic_vpad : Int
deriving DecidableEq, Repr

/-- C's integer division: truncation toward zero, undefined for a zero divisor. -/
def c_div (a b : Int) : Option Int := if b = 0 then none else some (Int.tdiv a b)

/-- Modelled from the spec: the macro `MATH_MIN` of `math_base.h` (not among the source files). -/
def MATH_MIN (a b : Int) : Int := if a < b then a else b

/-- Modelled from the spec: `lv_bar_get_value` of the bar (`lv_bar.c`, not among the source
files): the current value. -/
def lv_bar_get_value (s : Slider) : Int := s.act_value

/-- Modelled from the spec: `lv_bar_set_value` of the bar (`lv_bar.c`, not among the source
files): the new value of a bounded range input, kept within `min_value .. max_value`. -/
def lv_bar_set_value (s : Slider) (value : Int) : Slider :=
  let v := if value > s.max_value then s.max_value else value
  let v := if v < s.min_value then s.min_value else v
  { s with act_value := v }

/-- The test of line 122: the signal function maps the x coordinate of the point. -/
def signal_horizontal (s : Slider) : Bool :=
  let w := area_get_width s.cords
  let h := area_get_height s.cords
  decide (w > h)

/-- The test of lines 263 and 277: the design function draws a horizontal slider. -/
def design_horizontal (s : Slider) : Bool :=
  let slider_w := area_get_width s.cords
  let slider_h := area_get_height s.cords
  decide (slider_w ≥ slider_h)

/-- Conversion to `int16_t`, the type of the local `tmp` (line 115): the value modulo `2^16`
in the range `-32768 .. 32767`. -/
def to_int16 (v : Int) : Int := (v + 32768) % 65536 - 32768

/-- Lines 121-129: the value `tmp` that the `LV_SIGNAL_PRESSING` branch hands to
`lv_bar_set_value`, for the point `p` of the input device.  The quotient of line 124 (line 127)
is assigned to the `int16_t tmp`, and so is the difference of line 128. -/
def lv_slider_pressing_tmp (s : Slider) (p : point_t) : Option Int :=
  let w := area_get_width s.cords
  let h := area_get_height s.cords
  if signal_horizontal s then
    let px := p.x - (s.cords.x1 + Int.tdiv h 2)
    (c_div (px * (s.max_value - s.min_value + 1)) (w - h)).map to_int16
  else
    let py := p.y - (s.cords.y1 + Int.tdiv w 2)
    (c_div (py * (s.max_value - s.min_value + 1)) (h - w)).map fun tmp =>
      to_int16 (s.max_value - to_int16 tmp)

/-- Lines 149-152: the `LV_SIGNAL_REFR_EXT_SIZE` branch. -/
def slider_refr_ext_size (s : Slider) : Slider :=
  let w := area_get_width s.cords
  let h := area_get_height s.cords
  let x := MATH_MIN w h
  if s.ext_size < x then { s with ext_size := x } else s

/-- Signal function of the slider (`lv_slider_signal`, lines 100-156), the part that runs when
the ancestor `lv_bar_signal` reports the object as still valid.  The `LV_SIGNAL_CORD_CHG` branch
sends `LV_SIGNAL_REFR_EXT_SIZE` to the slider's own signal function, which is this function, so
it runs the branch of lines 149-152. -/
def lv_slider_signal (s : Slider) : lv_signal_t → Option Slider
  | .PRESSED => some { s with tmp_value := lv_bar_get_value s }
  | .PRESSING p => (lv_slider_pressing_tmp s p).map (lv_bar_set_value s)
  | .PRESS_LOST => some (lv_bar_set_value s s.tmp_value)
  | .RELEASED =>
    let s := { s with tmp_value := lv_bar_get_value s }
    let s := lv_bar_set_value s s.tmp_value
    some (if s.cb then { s with cb_calls := s.cb_calls + 1 } else s)
  | .CORD_CHG param =>
    if area_get_width s.cords ≠ area_get_width param ∨
        area_get_height s.cords ≠ area_get_height param then
      some (slider_refr_ext_size s)
    else some s
  | .REFR_EXT_SIZE => some (slider_refr_ext_size s)
  | .OTHER => some s

/-- The signals of a list delivered one after the other; `none` as soon as one handler fails. -/
def slider_run : Slider → List lv_signal_t → Option Slider
  | s, [] => some s
  | s, sign :: rest => (lv_slider_signal s sign).bind fun s1 => slider_run s1 rest

/-- The three rectangles `lv_slider_design` draws in mode `LV_DESIGN_DRAW_MAIN`. -/
structure slider_draw_t where
  area_bar : area_t
  area_indic : area_t
  knob_area : area_t
deriving DecidableEq, Repr

/-- Lines 250-269 of `lv_slider_design`: the indicator rectangle. -/
def slider_area_indic (s : Slider) : Option area_t :=
  let area_bar : area_t :=
    { x1 := s.cords.x1 + s.knob_hpad, x2 := s.cords.x2 - s.knob_hpad,
      y1 := s.cords.y1 + s.knob_vpad, y2 := s.cords.y2 - s.knob_vpad }
  let area_indic : area_t :=
    { x1 := area_bar.x1 + s.indic_hpad, x2 := area_bar.x2 - s.indic_hpad,
      y1 := area_bar.y1 + s.indic_vpad, y2 := area_bar.y2 - s.indic_vpad }
  let act_value := lv_bar_get_value s
  let min_value := s.min_value
  let max_value := s.max_value
  if design_horizontal s then
    (c_div (area_get_width area_indic * act_value) (max_value - min_value)).map fun q =>
      { area_indic with x2 := q + area_indic.x1 }
  else
    (c_div (area_get_height area_indic * act_value) (max_value - min_value)).map fun q =>
      { area_indic with y1 := area_indic.y2 - q }

/-- The drawing of the slider (`lv_slider_design` in mode `LV_DESIGN_DRAW_MAIN`, lines 236-294):
the rectangles passed to `lv_draw_rect`. -/
def lv_slider_design (s : Slider) : Option slider_draw_t :=
  let area_bar : area_t :=
    { x1 := s.cords.x1 + s.knob_hpad, x2 := s.cords.x2 - s.knob_hpad,
      y1 := s.cords.y1 + s.knob_vpad, y2 := s.cords.y2 - s.knob_vpad }
  let slider_w := area_get_width s.cords
  let slider_h := area_get_height s.cords
  (slider_area_indic s).map fun area_indic =>
    let knob_area : area_t :=
      if design_horizontal s then
        { x1 := area_indic.x2 - Int.tdiv slider_h 2,
          x2 := area_indic.x2 - Int.tdiv slider_h 2 + slider_h,
          y1 := s.cords.y1, y2 := s.cords.y2 }
      else
        { y1 := area_indic.y1 - Int.tdiv slider_w 2,
          y2 := area_indic.y1 - Int.tdiv slider_w 2 + slider_w,
          x1 := s.cords.x1, x2 := s.cords.x2 }
    { area_bar := area_bar, area_indic := area_indic, knob_area := knob_area }

/-! ## Concrete sliders -/

/-- The example of the spec: width 100, height 20, left edge 0, range 0 .. 100, value 30, a
callback registered, all paddings 0. -/
def slider_example : Slider :=
  { cords := ⟨0, 0, 99, 19⟩, ext_size := 0, act_value := 30, min_value := 0, max_value := 100,
    tmp_value := 0, cb := true, cb_calls := 0,
    knob_hpad := 0, knob_vpad := 0, indic_hpad := 0, indic_vpad := 0 }

/-- A square slider of 20 x 20. -/
def slider_square : Slider :=
  { slider_example with cords := ⟨0, 0, 19, 19⟩ }

/-- A slider of 100 x 20 with the range 10 .. 110 at its minimum value 10. -/
def slider_offset : Slider :=
  { slider_example with act_value := 10, min_value := 10, max_value := 110 }

/-- The slider `slider_offset` at its maximum value 110. -/
def slider_offset_max : Slider :=
  { slider_offset with act_value := 110 }

end LvSlider

namespace LvPage

/-! ## Frame lemmas -/

@[simp] theorem sb_invalidate_scrl (s : Page) : (sb_invalidate s).scrl = s.scrl := by
  cases h1 : s.sbh_draw <;> cases h2 : s.sbv_draw <;> simp [sb_invalidate, h1, h2]

@[simp] theorem sb_invalidate_cords (s : Page) : (sb_invalidate s).cords = s.cords := by
  cases h1 : s.sbh_draw <;> cases h2 : s.sbv_draw <;> simp [sb_invalidate, h1, h2]

@[simp] theorem sb_invalidate_hpad (s : Page) : (sb_invalidate s).hpad = s.hpad := by
  cases h1 : s.sbh_draw <;> cases h2 : s.sbv_draw <;> simp [sb_invalidate, h1, h2]

@[simp] theorem sb_invalidate_vpad (s : Page) : (sb_invalidate s).vpad = s.vpad := by
  cases h1 : s.sbh_draw <;> cases h2 : s.sbv_draw <;> simp [sb_invalidate, h1, h2]

@[simp] theorem sb_invalidate_sb_mode (s : Page) : (sb_invalidate s).sb_mode = s.sb_mode := by
  cases h1 : s.sbh_draw <;> cases h2 : s.sbv_draw <;> simp [sb_invalidate, h1, h2]

@[simp] theorem sb_invalidate_sb_width (s : Page) : (sb_invalidate s).sb_width = s.sb_width := by
  cases h1 : s.sbh_draw <;> cases h2 : s.sbv_draw <;> simp [sb_invalidate, h1, h2]

@[simp] theorem sb_invalidate_sbh (s : Page) : (sb_invalidate s).sbh = s.sbh := by
  cases h1 : s.sbh_draw <;> cases h2 : s.sbv_draw <;> simp [sb_invalidate, h1, h2]

@[simp] theorem sb_invalidate_sbv (s : Page) : (sb_invalidate s).sbv = s.sbv := by
  cases h1 : s.sbh_draw <;> cases h2 : s.sbv_draw <;> simp [sb_invalidate, h1, h2]

@[simp] theorem sb_invalidate_sbh_draw (s : Page) : (sb_invalidate s).sbh_draw = s.sbh_draw := by
  cases h1 : s.sbh_draw <;> cases h2 : s.sbv_draw <;> simp [sb_invalidate, h1, h2]

@[simp] theorem sb_invalidate_sbv_draw (s : Page) : (sb_invalidate s).sbv_draw = s.sbv_draw := by
  cases h1 : s.sbh_draw <;> cases h2 : s.sbv_draw <;> simp [sb_invalidate, h1, h2]

@[simp] theorem sb_invalidate_anims (s : Page) : (sb_invalidate s).anims = s.anims := by
  cases h1 : s.sbh_draw <;> cases h2 : s.sbv_draw <;> simp [sb_invalidate, h1, h2]

@[simp] theorem sb_refresh_hor_scrl (s : Page) : (sb_refresh_hor s).scrl = s.scrl := by
  simp only [sb_refresh_hor]; split_ifs <;> rfl

@[simp] theorem sb_refresh_hor_cords (s : Page) : (sb_refresh_hor s).cords = s.cords := by
  simp only [sb_refresh_hor]; split_ifs <;> rfl

@[simp] theorem sb_refresh_hor_hpad (s : Page) : (sb_refresh_hor s).hpad = s.hpad := by
  simp only [sb_refresh_hor]; split_ifs <;> rfl

@[simp] theorem sb_refresh_hor_vpad (s : Page) : (sb_refresh_hor s).vpad = s.vpad := by
  simp only [sb_refresh_hor]; split_ifs <;> rfl

@[simp] theorem sb_refresh_hor_sb_mode (s : Page) : (sb_refresh_hor s).sb_mode = s.sb_mode := by
  simp only [sb_refresh_hor]; split_ifs <;> rfl

@[simp] theorem sb_refresh_hor_sb_width (s : Page) : (sb_refresh_hor s).sb_width = s.sb_width := by
  simp only [sb_refresh_hor]; split_ifs <;> rfl

@[simp] theorem sb_refresh_hor_sbv (s : Page) : (sb_refresh_hor s).sbv = s.sbv := by
  simp only [sb_refresh_hor]; split_ifs <;> rfl

@[simp] theorem sb_refresh_hor_sbv_draw (s : Page) : (sb_refresh_hor s).sbv_draw = s.sbv_draw := by
  simp only [sb_refresh_hor]; split_ifs <;> rfl

@[simp] theorem sb_refresh_hor_inv_areas (s : Page) : (sb_refresh_hor s).inv_areas = s.inv_areas := by
  simp only [sb_refresh_hor]; split_ifs <;> rfl

@[simp] theorem sb_refresh_hor_anims (s : Page) : (sb_refresh_hor s).anims = s.anims := by
  simp only [sb_refresh_hor]; split_ifs <;> rfl

@[simp] theorem sb_refresh_ver_scrl (s : Page) : (sb_refresh_ver s).scrl = s.scrl := by
  simp only [sb_refresh_ver]; split_ifs <;> rfl

@[simp] theorem sb_refresh_ver_cords (s : Page) : (sb_refresh_ver s).cords = s.cords := by
  simp only [sb_refresh_ver]; split_ifs <;> rfl

@[simp] theorem sb_refresh_ver_hpad (s : Page) : (sb_refresh_ver s).hpad = s.hpad := by
  simp only [sb_refresh_ver]; split_ifs <;> rfl

@[simp] theorem sb_refresh_ver_vpad (s : Page) : (sb_refresh_ver s).vpad = s.vpad := by
  simp only [sb_refresh_ver]; split_ifs <;> rfl

@[simp] theorem sb_refresh_ver_sb_mode (s : Page) : (sb_refresh_ver s).sb_mode = s.sb_mode := by
  simp only [sb_refresh_ver]; split_ifs <;> rfl

@[simp] theorem sb_refresh_ver_sb_width (s : Page) : (sb_refresh_ver s).sb_width = s.sb_width := by
  simp only [sb_refresh_ver]; split_ifs <;> rfl

@[simp] theorem sb_refresh_ver_sbh (s : Page) : (sb_refresh_ver s).sbh = s.sbh := by
  simp only [sb_refresh_ver]; split_ifs <;> rfl

@[simp] theorem sb_refresh_ver_sbh_draw (s : Page) : (sb_refresh_ver s).sbh_draw = s.sbh_draw := by
  simp only [sb_refresh_ver]; split_ifs <;> rfl

@[simp] theorem sb_refresh_ver_inv_areas (s : Page) : (sb_refresh_ver s).inv_areas = s.inv_areas := by
  simp only [sb_refresh_ver]; split_ifs <;> rfl

@[simp] theorem sb_refresh_ver_anims (s : Page) : (sb_refresh_ver s).anims = s.anims := by
  simp only [sb_refresh_ver]; split_ifs <;> rfl

@[simp] theorem lv_page_sb_refresh_scrl (s : Page) : (lv_page_sb_refresh s).scrl = s.scrl := by
  simp only [lv_page_sb_refresh]; split_ifs <;> simp

@[simp] theorem lv_page_sb_refresh_cords (s : Page) : (lv_page_sb_refresh s).cords = s.cords := by
  simp only [lv_page_sb_refresh]; split_ifs <;> simp

@[simp] theorem lv_page_sb_refresh_hpad (s : Page) : (lv_page_sb_refresh s).hpad = s.hpad := by
  simp only [lv_page_sb_refresh]; split_ifs <;> simp

@[simp] theorem lv_page_sb_refresh_vpad (s : Page) : (lv_page_sb_refresh s).vpad = s.vpad := by
  simp only [lv_page_sb_refresh]; split_ifs <;> simp

@[simp] theorem lv_page_sb_refresh_sb_mode (s : Page) : (lv_page_sb_refresh s).sb_mode = s.sb_mode := by
  simp only [lv_page_sb_refresh]; split_ifs <;> simp

@[simp] theorem lv_page_sb_refresh_sb_width (s : Page) : (lv_page_sb_refresh s).sb_width = s.sb_width := by
  simp only [lv_page_sb_refresh]; split_ifs <;> simp

@[simp] theorem lv_page_sb_refresh_anims (s : Page) : (lv_page_sb_refresh s).anims = s.anims := by
  simp only [lv_page_sb_refresh]; split_ifs <;> simp

/-! ## The clamp -/

theorem scrl_move_scrl (s : Page) (x y : Int) :
    (scrl_move s x y).scrl =
      { x1 := s.cords.x1 + x, y1 := s.cords.y1 + y,
        x2 := s.cords.x1 + x + area_get_width s.scrl - 1,
        y2 := s.cords.y1 + y + area_get_height s.scrl - 1 } := by
  simp [scrl_move, area_set_pos, area_set_width, area_set_height]

theorem scrl_settle_cords (s : Page) : (scrl_settle s).cords = s.cords := by
  simp only [scrl_settle, scrl_move]; split_ifs <;> rfl

theorem scrl_settle_hpad (s : Page) : (scrl_settle s).hpad = s.hpad := by
  simp only [scrl_settle, scrl_move]; split_ifs <;> rfl

theorem scrl_settle_vpad (s : Page) : (scrl_settle s).vpad = s.vpad := by
  simp only [scrl_settle, scrl_move]; split_ifs <;> rfl

theorem scrl_move_self (s : Page) : scrl_move s (lv_obj_get_x s) (lv_obj_get_y s) = s := by
  rcases s with ⟨⟨px1, py1, px2, py2⟩, ⟨ox1, oy1, ox2, oy2⟩, hpad, vpad, m, w, bh, bv, dh, dv, l, a⟩
  simp only [scrl_move, area_set_pos, area_set_width, area_set_height, area_get_width,
    area_get_height, lv_obj_get_x, lv_obj_get_y, Page.mk.injEq, area_t.mk.injEq, and_true,
    true_and]
  refine ⟨?_, ?_, ?_, ?_⟩ <;> omega

theorem scrl_clamp_x_keep (s : Page) (h : (scrl_clamp_x s).2 = false) :
    (scrl_clamp_x s).1 = lv_obj_get_x s := by
  revert h
  simp only [scrl_clamp_x]
  split_ifs <;> simp

theorem scrl_clamp_y_keep (s : Page) (h : (scrl_clamp_y s).2 = false) :
    (scrl_clamp_y s).1 = lv_obj_get_y s := by
  revert h
  simp only [scrl_clamp_y]
  split_ifs <;> simp

/-- Whether or not line 273 runs, the scrollable ends at `(new_x, new_y)`. -/
theorem scrl_settle_eq_move (s : Page) :
    scrl_settle s = scrl_move s (scrl_clamp_x s).1 (scrl_clamp_y s).1 := by
  simp only [scrl_settle, scrl_clamp]
  split_ifs with h
  · rfl
  · have hx : (scrl_clamp_x s).2 = false := by
      by_contra hx; exact h (Or.inl hx)
    have hy : (scrl_clamp_y s).2 = false := by
      by_contra hy; exact h (Or.inr hy)
    rw [scrl_clamp_x_keep s hx, scrl_clamp_y_keep s hy, scrl_move_self]

theorem scrl_move_clamped_x (s : Page) (y : Int) :
    clamped_x (scrl_move s (scrl_clamp_x s).1 y) := by
  rcases s with ⟨⟨px1, py1, px2, py2⟩, ⟨ox1, oy1, ox2, oy2⟩, hpad, vpad, m, w, bh, bv, dh, dv, l, a⟩
  simp only [clamped_x, scrl_clamp_x, scrl_move, area_set_pos, area_set_width, area_set_height,
    area_get_width, area_get_height, lv_obj_get_x]
  split_ifs <;> simp only [] <;> omega

theorem scrl_move_clamped_y (s : Page) (x : Int) :
    clamped_y (scrl_move s x (scrl_clamp_y s).1) := by
  rcases s with ⟨⟨px1, py1, px2, py2⟩, ⟨ox1, oy1, ox2, oy2⟩, hpad, vpad, m, w, bh, bv, dh, dv, l, a⟩
  simp only [clamped_y, scrl_clamp_y, scrl_move, area_set_pos, area_set_width, area_set_height,
    area_get_width, area_get_height, lv_obj_get_y]
  split_ifs <;> simp only [] <;> omega

/-- The position applied at line 273 puts the x axis into the clamped state. -/
theorem scrl_settle_clamped_x (s : Page) : clamped_x (scrl_settle s) := by
  rw [scrl_settle_eq_move]; exact scrl_move_clamped_x s _

/-- The position applied at line 273 puts the y axis into the clamped state. -/
theorem scrl_settle_clamped_y (s : Page) : clamped_y (scrl_settle s) := by
  rw [scrl_settle_eq_move]; exact scrl_move_clamped_y s _

/-- A clamped scrollable is left where it is: no axis asks for a reposition. -/
theorem scrl_clamp_x_of_clamped (s : Page) (h : clamped_x s) :
    scrl_clamp_x s = (lv_obj_get_x s, false) := by
  revert h
  simp only [clamped_x, scrl_clamp_x]
  split_ifs <;> simp <;> omega

theorem scrl_clamp_y_of_clamped (s : Page) (h : clamped_y s) :
    scrl_clamp_y s = (lv_obj_get_y s, false) := by
  revert h
  simp only [clamped_y, scrl_clamp_y]
  split_ifs <;> simp <;> omega

/-- The handler on a scrollable that needs no reposition: one level, scrollbars refreshed. -/
theorem lv_scrl_signal_cord_chg_fixed (fuel : Nat) (s : Page)
    (hx : (scrl_clamp s).refr_x = false) (hy : (scrl_clamp s).refr_y = false) :
    lv_scrl_signal (fuel + 1) s lv_signal_t.CORD_CHG = some (lv_page_sb_refresh s) := by
  simp [lv_scrl_signal, hx, hy]

/-- The handler in general: at most one nested entry. -/
theorem lv_scrl_signal_cord_chg_eq (fuel : Nat) (s : Page) :
    lv_scrl_signal (fuel + 2) s lv_signal_t.CORD_CHG =
      some (if (scrl_clamp s).refr_x ≠ false ∨ (scrl_clamp s).refr_y ≠ false
            then lv_page_sb_refresh (lv_page_sb_refresh (scrl_settle s))
            else lv_page_sb_refresh s) := by
  by_cases h : (scrl_clamp s).refr_x ≠ false ∨ (scrl_clamp s).refr_y ≠ false
  · have hs : scrl_settle s = scrl_move s (scrl_clamp s).new_x (scrl_clamp s).new_y := by
      simp only [scrl_settle, if_pos h]
    have hcx := scrl_clamp_x_of_clamped _ (scrl_settle_clamped_x s)
    have hcy := scrl_clamp_y_of_clamped _ (scrl_settle_clamped_y s)
    have hfix := lv_scrl_signal_cord_chg_fixed fuel (scrl_settle s)
      (by simp [scrl_clamp, hcx]) (by simp [scrl_clamp, hcy])
    rw [hs] at hfix
    rw [lv_scrl_signal]
    simp only [if_pos h, lv_obj_set_pos, hfix, Option.map_some', hs]
  · rw [lv_scrl_signal]
    simp only [if_neg h, Option.map_some']

/-- Geometry after the handler: the scrollable is where the clamp put it, the page and the
paddings are as before. -/
theorem lv_scrl_signal_cord_chg_geom (fuel : Nat) (s : Page) :
    ∃ s1, lv_scrl_signal (fuel + 2) s lv_signal_t.CORD_CHG = some s1 ∧
      s1.scrl = (scrl_settle s).scrl ∧ s1.cords = s.cords ∧ s1.hpad = s.hpad ∧
      s1.vpad = s.vpad := by
  refine ⟨_, lv_scrl_signal_cord_chg_eq fuel s, ?_⟩
  split_ifs with h
  · simp [scrl_settle_cords, scrl_settle_hpad, scrl_settle_vpad]
  · have hs : scrl_settle s = s := by simp only [scrl_settle, if_neg h]
    simp [hs]

theorem scrl_settle_width (s : Page) :
    area_get_width (scrl_settle s).scrl = area_get_width s.scrl := by
  rw [scrl_settle_eq_move, scrl_move_scrl]
  simp only [area_get_width]; omega

theorem scrl_settle_height (s : Page) :
    area_get_height (scrl_settle s).scrl = area_get_height s.scrl := by
  rw [scrl_settle_eq_move, scrl_move_scrl]
  simp only [area_get_height]; omega

/-- C1. Clamp, small content: the `LV_SIGNAL_CORD_CHG` branch of `lv_scrl_signal` returns, and on
every axis on which the content surface plus both paddings is smaller than the page the surface's
near edge then sits exactly one padding from the page's near edge, whatever its position was and
whatever the other axis does. -/
theorem lv_scrl_signal_cord_chg_small_content (fuel : Nat) (s : Page) :
    ∃ s1, lv_scrl_signal (fuel + 2) s lv_signal_t.CORD_CHG = some s1 ∧ s1.cords = s.cords ∧
      (area_get_width s.scrl + 2 * s.hpad < area_get_width s.cords →
        s1.scrl.x1 = s.cords.x1 + s.hpad) ∧
      (area_get_height s.scrl + 2 * s.vpad < area_get_height s.cords →
        s1.scrl.y1 = s.cords.y1 + s.vpad) := by
  obtain ⟨s1, h, hscrl, hcords, -, -⟩ := lv_scrl_signal_cord_chg_geom fuel s
  refine ⟨s1, h, hcords, ?_, ?_⟩
  · intro hx
    have hc := scrl_settle_clamped_x s
    simp only [clamped_x, scrl_settle_width, scrl_settle_cords, scrl_settle_hpad, if_pos hx] at hc
    rw [hscrl]; exact hc
  · intro hy
    have hc := scrl_settle_clamped_y s
    simp only [clamped_y, scrl_settle_height, scrl_settle_cords, scrl_settle_vpad, if_pos hy] at hc
    rw [hscrl]; exact hc

/-- Witness for C1: the 50 x 40 surface of `page_small` is small on both axes and ends at (5, 5). -/
theorem lv_scrl_signal_cord_chg_small_content_witness :
    area_get_width page_small.scrl + 2 * page_small.hpad < area_get_width page_small.cords ∧
    area_get_height page_small.scrl + 2 * page_small.vpad < area_get_height page_small.cords ∧
    ∃ s1, lv_scrl_signal 2 page_small lv_signal_t.CORD_CHG = some s1 ∧
      s1.scrl.x1 = page_small.cords.x1 + page_small.hpad ∧
      s1.scrl.y1 = page_small.cords.y1 + page_small.vpad := by
  refine ⟨by decide, by decide, ?_⟩
  obtain ⟨s1, h, -, hx, hy⟩ := lv_scrl_signal_cord_chg_small_content 0 page_small
  exact ⟨s1, h, hx (by decide), hy (by decide)⟩

/-- C2. No-gap invariant: the `LV_SIGNAL_CORD_CHG` branch of `lv_scrl_signal` returns, and on
every axis on which the content surface plus both paddings is at least as large as the page the
surface then starts no later than one padding after the page's near edge and ends no earlier than
one padding before the page's far edge, for every starting position; the two triggers of that
branch never fire together. -/
theorem lv_scrl_signal_cord_chg_no_gap (fuel : Nat) (s : Page) :
    ∃ s1, lv_scrl_signal (fuel + 2) s lv_signal_t.CORD_CHG = some s1 ∧ s1.cords = s.cords ∧
      (area_get_width s.scrl + 2 * s.hpad ≥ area_get_width s.cords →
        s1.scrl.x1 ≤ s.cords.x1 + s.hpad ∧ s1.scrl.x2 ≥ s.cords.x2 - s.hpad ∧
        ¬ (s.scrl.x2 < s.cords.x2 - s.hpad ∧ s.scrl.x1 > s.cords.x1 + s.hpad)) ∧
      (area_get_height s.scrl + 2 * s.vpad ≥ area_get_height s.cords →
        s1.scrl.y1 ≤ s.cords.y1 + s.vpad ∧ s1.scrl.y2 ≥ s.cords.y2 - s.vpad ∧
        ¬ (s.scrl.y2 < s.cords.y2 - s.vpad ∧ s.scrl.y1 > s.cords.y1 + s.vpad)) := by
  obtain ⟨s1, h, hscrl, hcords, -, -⟩ := lv_scrl_signal_cord_chg_geom fuel s
  refine ⟨s1, h, hcords, ?_, ?_⟩
  · intro hx
    have hc := scrl_settle_clamped_x s
    simp only [clamped_x, scrl_settle_width, scrl_settle_cords, scrl_settle_hpad,
      if_neg (not_lt.mpr hx)] at hc
    rw [hscrl]
    refine ⟨hc.1, hc.2, ?_⟩
    simp only [area_get_width] at hx
    omega
  · intro hy
    have hc := scrl_settle_clamped_y s
    simp only [clamped_y, scrl_settle_height, scrl_settle_cords, scrl_settle_vpad,
      if_neg (not_lt.mpr hy)] at hc
    rw [hscrl]
    refine ⟨hc.1, hc.2, ?_⟩
    simp only [area_get_height] at hy
    omega

/-- Witness for C2: the 400 x 300 surface of `page_big` is large on both axes; after the handler
it covers the page minus the paddings. -/
theorem lv_scrl_signal_cord_chg_no_gap_witness :
    area_get_width page_big.scrl + 2 * page_big.hpad ≥ area_get_width page_big.cords ∧
    area_get_height page_big.scrl + 2 * page_big.vpad ≥ area_get_height page_big.cords ∧
    ∃ s1, lv_scrl_signal 2 page_big lv_signal_t.CORD_CHG = some s1 ∧
      (s1.scrl.x1 ≤ page_big.cords.x1 + page_big.hpad ∧
        s1.scrl.x2 ≥ page_big.cords.x2 - page_big.hpad) ∧
      (s1.scrl.y1 ≤ page_big.cords.y1 + page_big.vpad ∧
        s1.scrl.y2 ≥ page_big.cords.y2 - page_big.vpad) := by
  refine ⟨by decide, by decide, ?_⟩
  obtain ⟨s1, h, -, hx, hy⟩ := lv_scrl_signal_cord_chg_no_gap 0 page_big
  exact ⟨s1, h, ⟨(hx (by decide)).1, (hx (by decide)).2.1⟩,
    ⟨(hy (by decide)).1, (hy (by decide)).2.1⟩⟩

/-- C3. The clamp converges in one step: for every geometry the `LV_SIGNAL_CORD_CHG` branch of
`lv_scrl_signal` returns, and on the state it returns the clamp asks for no reposition (`refr_x`
and `refr_y` are false, `new_x`, `new_y` are the current position), so handling the signal again
returns without moving the content surface; applying the clamp's decision twice is the same as
applying it once. -/
theorem lv_scrl_signal_cord_chg_converges (fuel : Nat) (s : Page) :
    (∃ s1, lv_scrl_signal (fuel + 2) s lv_signal_t.CORD_CHG = some s1 ∧
      scrl_clamp s1 =
        { new_x := lv_obj_get_x s1, new_y := lv_obj_get_y s1, refr_x := false, refr_y := false } ∧
      ∃ s2, lv_scrl_signal (fuel + 1) s1 lv_signal_t.CORD_CHG = some s2 ∧ s2.scrl = s1.scrl) ∧
    scrl_settle (scrl_settle s) = scrl_settle s := by
  refine ⟨?_, ?_⟩
  swap
  · have hx := scrl_clamp_x_of_clamped _ (scrl_settle_clamped_x s)
    have hy := scrl_clamp_y_of_clamped _ (scrl_settle_clamped_y s)
    rw [scrl_settle_eq_move (scrl_settle s), hx, hy]
    exact scrl_move_self _
  obtain ⟨s1, h, hscrl, hcords, hh, hv⟩ := lv_scrl_signal_cord_chg_geom fuel s
  have hx : clamped_x s1 := by
    have hc := scrl_settle_clamped_x s
    simp only [clamped_x, scrl_settle_cords, scrl_settle_hpad] at hc
    simp only [clamped_x, hscrl, hcords, hh]
    exact hc
  have hy : clamped_y s1 := by
    have hc := scrl_settle_clamped_y s
    simp only [clamped_y, scrl_settle_cords, scrl_settle_vpad] at hc
    simp only [clamped_y, hscrl, hcords, hv]
    exact hc
  have hc : scrl_clamp s1 =
      { new_x := lv_obj_get_x s1, new_y := lv_obj_get_y s1, refr_x := false, refr_y := false } := by
    simp only [scrl_clamp, scrl_clamp_x_of_clamped s1 hx, scrl_clamp_y_of_clamped s1 hy]
  refine ⟨s1, h, hc, lv_page_sb_refresh s1, ?_, ?_⟩
  · exact lv_scrl_signal_cord_chg_fixed fuel s1 (by rw [hc]) (by rw [hc])
  · simp

/-! ## Scrollbar geometry -/

theorem MATH_MAX_eq_max (a b : Int) : MATH_MAX a b = max a b := by
  unfold MATH_MAX
  split_ifs with h
  · exact (max_eq_left (le_of_lt h)).symm
  · exact (max_eq_right (not_lt.mp h)).symm

/-- The horizontal bar computed by lines 623-637 depends on the geometry only. -/
theorem sb_refresh_hor_sbh_congr (s t : Page) (h1 : s.scrl = t.scrl) (h2 : s.cords = t.cords)
    (h3 : s.hpad = t.hpad) (h4 : s.sb_width = t.sb_width) (h5 : s.sbh = t.sbh) :
    (sb_refresh_hor s).sbh = (sb_refresh_hor t).sbh := by
  simp only [sb_refresh_hor, lv_obj_get_x, h1, h2, h3, h4, h5]
  split_ifs <;> rfl

/-- The vertical bar computed by lines 639-654 depends on the geometry only. -/
theorem sb_refresh_ver_sbv_congr (s t : Page) (h1 : s.scrl = t.scrl) (h2 : s.cords = t.cords)
    (h3 : s.vpad = t.vpad) (h4 : s.sb_width = t.sb_width) (h5 : s.sbv = t.sbv) :
    (sb_refresh_ver s).sbv = (sb_refresh_ver t).sbv := by
  simp only [sb_refresh_ver, lv_obj_get_y, h1, h2, h3, h4, h5]
  split_ifs <;> rfl

/-- Outside mode OFF the refreshed horizontal bar is the one of lines 623-637. -/
theorem lv_page_sb_refresh_sbh (s : Page) (h : s.sb_mode ≠ lv_page_sb_mode_t.OFF) :
    (lv_page_sb_refresh s).sbh = (sb_refresh_hor s).sbh := by
  simp only [lv_page_sb_refresh, if_neg h, sb_invalidate_sbh, sb_refresh_ver_sbh]
  apply sb_refresh_hor_sbh_congr <;> simp only [sb_invalidate_scrl, sb_invalidate_cords,
    sb_invalidate_hpad, sb_invalidate_sb_width, sb_invalidate_sbh] <;> split_ifs <;> rfl

/-- Outside mode OFF the refreshed vertical bar is the one of lines 639-654. -/
theorem lv_page_sb_refresh_sbv (s : Page) (h : s.sb_mode ≠ lv_page_sb_mode_t.OFF) :
    (lv_page_sb_refresh s).sbv = (sb_refresh_ver s).sbv := by
  simp only [lv_page_sb_refresh, if_neg h, sb_invalidate_sbv]
  apply sb_refresh_ver_sbv_congr <;> simp only [sb_invalidate_scrl, sb_invalidate_cords,
    sb_invalidate_vpad, sb_invalidate_sb_width, sb_invalidate_sbv, sb_refresh_hor_scrl,
    sb_refresh_hor_cords, sb_refresh_hor_vpad, sb_refresh_hor_sb_width, sb_refresh_hor_sbv]
    <;> split_ifs <;> rfl

/-- Lines 624-634 written out: the rectangle of the horizontal bar. -/
theorem sb_refresh_hor_sbh (s : Page) :
    (sb_refresh_hor s).sbh =
      if area_get_width s.scrl ≤ area_get_width s.cords - 2 * s.hpad then
        { x1 := MATH_MAX s.sb_width s.hpad,
          y1 := area_get_height s.cords - s.sb_width,
          x2 := MATH_MAX s.sb_width s.hpad +
                  (area_get_width s.cords - 2 * MATH_MAX s.sb_width s.hpad) - 1,
          y2 := area_get_height s.cords - s.sb_width + area_get_height s.sbh - 1 }
      else
        { x1 := MATH_MAX s.sb_width s.hpad +
                  Int.tdiv (-(lv_obj_get_x s - s.hpad) *
                      (area_get_width s.cords -
                        Int.tdiv (area_get_width s.cords *
                            (area_get_width s.cords - 2 * MATH_MAX s.sb_width s.hpad))
                          (area_get_width s.scrl + 2 * s.hpad) -
                        2 * MATH_MAX s.sb_width s.hpad))
                    (area_get_width s.scrl + 2 * s.hpad - area_get_width s.cords),
          y1 := area_get_height s.cords - s.sb_width,
          x2 := MATH_MAX s.sb_width s.hpad +
                  Int.tdiv (-(lv_obj_get_x s - s.hpad) *
                      (area_get_width s.cords -
                        Int.tdiv (area_get_width s.cords *
                            (area_get_width s.cords - 2 * MATH_MAX s.sb_width s.hpad))
                          (area_get_width s.scrl + 2 * s.hpad) -
                        2 * MATH_MAX s.sb_width s.hpad))
                    (area_get_width s.scrl + 2 * s.hpad - area_get_width s.cords) +
                  Int.tdiv (area_get_width s.cords *
                      (area_get_width s.cords - 2 * MATH_MAX s.sb_width s.hpad))
                    (area_get_width s.scrl + 2 * s.hpad) - 1,
          y2 := area_get_height s.cords - s.sb_width + area_get_height s.sbh - 1 } := by
  simp only [sb_refresh_hor]
  split_ifs <;>
    simp only [area_set_pos, area_set_width, area_set_height, area_get_width, area_get_height,
      area_t.mk.injEq, true_and, and_true] <;>
    ring

/-- Lines 640-651 written out: the rectangle of the vertical bar. -/
theorem sb_refresh_ver_sbv (s : Page) :
    (sb_refresh_ver s).sbv =
      if area_get_height s.scrl ≤ area_get_height s.cords - 2 * s.vpad then
        { x1 := area_get_width s.cords - s.sb_width,
          y1 := MATH_MAX s.sb_width s.vpad,
          x2 := area_get_width s.cords - s.sb_width + area_get_width s.sbv - 1,
          y2 := MATH_MAX s.sb_width s.vpad +
                  (area_get_height s.cords - 2 * MATH_MAX s.sb_width s.vpad) - 1 }
      else
        { x1 := area_get_width s.cords - s.sb_width,
          y1 := MATH_MAX s.sb_width s.vpad +
                  Int.tdiv (-(lv_obj_get_y s - s.vpad) *
                      (area_get_height s.cords -
                        Int.tdiv (area_get_height s.cords *
                            (area_get_height s.cords - 2 * MATH_MAX s.sb_width s.vpad))
                          (area_get_height s.scrl + 2 * s.vpad) -
                        2 * MATH_MAX s.sb_width s.vpad))
                    (area_get_height s.scrl + 2 * s.vpad - area_get_height s.cords),
          x2 := area_get_width s.cords - s.sb_width + area_get_width s.sbv - 1,
          y2 := MATH_MAX s.sb_width s.vpad +
                  Int.tdiv (-(lv_obj_get_y s - s.vpad) *
                      (area_get_height s.cords -
                        Int.tdiv (area_get_height s.cords *
                            (area_get_height s.cords - 2 * MATH_MAX s.sb_width s.vpad))
                          (area_get_height s.scrl + 2 * s.vpad) -
                        2 * MATH_MAX s.sb_width s.vpad))
                    (area_get_height s.scrl + 2 * s.vpad - area_get_height s.cords) +
                  Int.tdiv (area_get_height s.cords *
                      (area_get_height s.cords - 2 * MATH_MAX s.sb_width s.vpad))
                    (area_get_height s.scrl + 2 * s.vpad) - 1 } := by
  simp only [sb_refresh_ver]
  split_ifs <;>
    simp only [area_set_pos, area_set_width, area_set_height, area_get_width, area_get_height,
      area_t.mk.injEq, true_and, and_true] <;>
    ring

/-- Length of the horizontal bar after lines 623-637. -/
theorem sb_refresh_hor_width (s : Page) :
    area_get_width (sb_refresh_hor s).sbh =
      if area_get_width s.scrl ≤ area_get_width s.cords - 2 * s.hpad then
        area_get_width s.cords - 2 * MATH_MAX s.sb_width s.hpad
      else
        Int.tdiv (area_get_width s.cords *
            (area_get_width s.cords - 2 * MATH_MAX s.sb_width s.hpad))
          (area_get_width s.scrl + 2 * s.hpad) := by
  rw [sb_refresh_hor_sbh]
  split_ifs <;> simp only [area_get_width] <;> omega

/-- Length of the vertical bar after lines 639-654. -/
theorem sb_refresh_ver_height (s : Page) :
    area_get_height (sb_refresh_ver s).sbv =
      if area_get_height s.scrl ≤ area_get_height s.cords - 2 * s.vpad then
        area_get_height s.cords - 2 * MATH_MAX s.sb_width s.vpad
      else
        Int.tdiv (area_get_height s.cords *
            (area_get_height s.cords - 2 * MATH_MAX s.sb_width s.vpad))
          (area_get_height s.scrl + 2 * s.vpad) := by
  rw [sb_refresh_ver_sbv]
  split_ifs <;> simp only [area_get_height] <;> omega

/-- Outside mode OFF, in the scrolling regime, the refreshed horizontal bar has the length of
line 629. -/
theorem sbh_width_scrolling (s : Page) (hmode : s.sb_mode ≠ lv_page_sb_mode_t.OFF)
    (hx : area_get_width s.scrl > area_get_width s.cords - 2 * s.hpad) :
    area_get_width (lv_page_sb_refresh s).sbh =
      Int.tdiv (area_get_width s.cords * (area_get_width s.cords - 2 * max s.sb_width s.hpad))
        (area_get_width s.scrl + 2 * s.hpad) := by
  rw [lv_page_sb_refresh_sbh s hmode, sb_refresh_hor_width, if_neg (not_le.mpr hx),
    MATH_MAX_eq_max]

/-- Outside mode OFF, in the scrolling regime, the refreshed vertical bar has the length of
line 645. -/
theorem sbv_height_scrolling (s : Page) (hmode : s.sb_mode ≠ lv_page_sb_mode_t.OFF)
    (hy : area_get_height s.scrl > area_get_height s.cords - 2 * s.vpad) :
    area_get_height (lv_page_sb_refresh s).sbv =
      Int.tdiv (area_get_height s.cords * (area_get_height s.cords - 2 * max s.sb_width s.vpad))
        (area_get_height s.scrl + 2 * s.vpad) := by
  rw [lv_page_sb_refresh_sbv s hmode, sb_refresh_ver_height, if_neg (not_le.mpr hy),
    MATH_MAX_eq_max]

/-- C4, as stated, fails in mode OFF: on the example page with the scrollbars switched off the
content (400) exceeds the viewport minus the paddings (190), yet `lv_page_sb_refresh` returns at
line 597 and the horizontal bar keeps its old length 1 instead of 200 * (200 - 20) / (400 + 10). -/
theorem lv_page_sb_refresh_thumb_off_counterexample :
    area_get_width page_example_off.scrl >
        area_get_width page_example_off.cords - 2 * page_example_off.hpad ∧
    area_get_width (lv_page_sb_refresh page_example_off).sbh = 1 ∧
    Int.tdiv (area_get_width page_example_off.cords *
        (area_get_width page_example_off.cords -
          2 * max page_example_off.sb_width page_example_off.hpad))
      (area_get_width page_example_off.scrl + 2 * page_example_off.hpad) = 87 := by
  decide

/-- C4, amended. Thumb length: in every mode other than OFF, on an axis whose content extent
exceeds the viewport extent minus twice the style padding, `lv_page_sb_refresh` sets the bar
length to `viewportExtent * (viewportExtent - 2 * effPad) / (contentExtent + 2 * stylePad)` with
truncating division, `effPad = max (thickness, stylePad)`; on the example page (viewport
200 x 100, padding 5, thickness 10, content 400 x 60) the horizontal length is 87. -/
theorem lv_page_sb_refresh_thumb_length (s : Page) (hmode : s.sb_mode ≠ lv_page_sb_mode_t.OFF) :
    (area_get_width s.scrl > area_get_width s.cords - 2 * s.hpad →
      area_get_width (lv_page_sb_refresh s).sbh =
        Int.tdiv (area_get_width s.cords * (area_get_width s.cords - 2 * max s.sb_width s.hpad))
          (area_get_width s.scrl + 2 * s.hpad)) ∧
    (area_get_height s.scrl > area_get_height s.cords - 2 * s.vpad →
      area_get_height (lv_page_sb_refresh s).sbv =
        Int.tdiv (area_get_height s.cords *
            (area_get_height s.cords - 2 * max s.sb_width s.vpad))
          (area_get_height s.scrl + 2 * s.vpad)) ∧
    area_get_width (lv_page_sb_refresh page_example).sbh = 87 := by
  exact ⟨sbh_width_scrolling s hmode, sbv_height_scrolling s hmode, by decide⟩

/-- Witness for C4: the example page is in mode AUTO and scrolls horizontally. -/
theorem lv_page_sb_refresh_thumb_length_witness :
    page_example.sb_mode ≠ lv_page_sb_mode_t.OFF ∧
    area_get_width page_example.scrl > area_get_width page_example.cords - 2 * page_example.hpad ∧
    area_get_width (lv_page_sb_refresh page_example).sbh =
      Int.tdiv (area_get_width page_example.cords *
          (area_get_width page_example.cords - 2 * max page_example.sb_width page_example.hpad))
        (area_get_width page_example.scrl + 2 * page_example.hpad) :=
  ⟨by decide, by decide,
    (lv_page_sb_refresh_thumb_length page_example (by decide)).1 (by decide)⟩

/-! ## Truncating division -/

theorem tdiv_antitone_den (N D1 D2 : Int) (hN : 0 ≤ N) (h1 : 0 < D1) (h12 : D1 ≤ D2) :
    Int.tdiv N D2 ≤ Int.tdiv N D1 := by
  have h2 : 0 < D2 := lt_of_lt_of_le h1 h12
  rw [Int.tdiv_eq_ediv hN (le_of_lt h2), Int.tdiv_eq_ediv hN (le_of_lt h1)]
  have hq : 0 ≤ N / D2 := Int.ediv_nonneg hN (le_of_lt h2)
  rw [Int.le_ediv_iff_mul_le h1]
  calc N / D2 * D1 ≤ N / D2 * D2 := Int.mul_le_mul_of_nonneg_left h12 hq
    _ ≤ N := Int.ediv_mul_le N (ne_of_gt h2)

theorem tdiv_mul_bounds (p T E : Int) (hp : 0 ≤ p) (hpE : p ≤ E) (hT : 0 ≤ T) (hE : 0 < E) :
    0 ≤ Int.tdiv (p * T) E ∧ Int.tdiv (p * T) E ≤ T := by
  have hN : 0 ≤ p * T := mul_nonneg hp hT
  refine ⟨Int.tdiv_nonneg hN (le_of_lt hE), ?_⟩
  rw [Int.tdiv_eq_ediv hN (le_of_lt hE)]
  have h : p * T ≤ T * E := by
    calc p * T ≤ E * T := Int.mul_le_mul_of_nonneg_right hpE hT
      _ = T * E := mul_comm E T
  calc p * T / E ≤ T * E / E := Int.ediv_le_ediv hE h
    _ = T := Int.mul_ediv_cancel T (ne_of_gt hE)

/-- The divisors of lines 629, 633-634, 645 and 650-651 are positive whenever the scrolling
branch is taken on a page of non-negative extent: no division by zero. -/
theorem lv_page_sb_refresh_divisors_pos (s : Page) :
    (0 ≤ area_get_width s.cords → ¬ area_get_width s.scrl ≤ area_get_width s.cords - 2 * s.hpad →
      0 < area_get_width s.scrl + 2 * s.hpad ∧
      0 < area_get_width s.scrl + 2 * s.hpad - area_get_width s.cords) ∧
    (0 ≤ area_get_height s.cords →
      ¬ area_get_height s.scrl ≤ area_get_height s.cords - 2 * s.vpad →
      0 < area_get_height s.scrl + 2 * s.vpad ∧
      0 < area_get_height s.scrl + 2 * s.vpad - area_get_height s.cords) := by
  constructor <;> intro h0 h <;> constructor <;> omega

/-! ## Thumb length against content extent -/

/-- C5, as stated, fails: with viewport 200, padding 5 and thickness 10 the content extents 400
and 401 are both in the scrolling regime and `lv_page_sb_refresh` gives both the thumb length 87,
so the length does not strictly decrease. -/
theorem lv_page_sb_refresh_thumb_not_strict_counterexample :
    area_get_width page_example.scrl = 400 ∧ area_get_width page_example_401.scrl = 401 ∧
    area_get_width page_example.cords - 2 * page_example.hpad < area_get_width page_example.scrl ∧
    page_example_401.cords = page_example.cords ∧ page_example_401.hpad = page_example.hpad ∧
    page_example_401.sb_width = page_example.sb_width ∧
    area_get_width (lv_page_sb_refresh page_example).sbh = 87 ∧
    area_get_width (lv_page_sb_refresh page_example_401).sbh = 87 ∧
    ¬ (area_get_width (lv_page_sb_refresh page_example).sbh >
        area_get_width (lv_page_sb_refresh page_example_401).sbh) := by
  decide

/-- C5, amended. For a fixed viewport, padding and thickness with a viewport extent of at least
`2 * effPad`, and two content extents `c1 < c2` both in the scrolling regime, the thumb length
`lv_page_sb_refresh` computes for `c2` is less than or equal to the one it computes for `c1`
(the truncating division makes neighbouring extents share a length); on both axes, in every mode
other than OFF. -/
theorem lv_page_sb_refresh_thumb_antitone (s1 s2 : Page)
    (hm1 : s1.sb_mode ≠ lv_page_sb_mode_t.OFF) (hm2 : s2.sb_mode ≠ lv_page_sb_mode_t.OFF)
    (hc : s2.cords = s1.cords) (hh : s2.hpad = s1.hpad) (hv : s2.vpad = s1.vpad)
    (hw : s2.sb_width = s1.sb_width) :
    (0 ≤ area_get_width s1.cords →
      2 * max s1.sb_width s1.hpad ≤ area_get_width s1.cords →
      area_get_width s1.cords - 2 * s1.hpad < area_get_width s1.scrl →
      area_get_width s1.scrl < area_get_width s2.scrl →
      area_get_width (lv_page_sb_refresh s2).sbh ≤ area_get_width (lv_page_sb_refresh s1).sbh) ∧
    (0 ≤ area_get_height s1.cords →
      2 * max s1.sb_width s1.vpad ≤ area_get_height s1.cords →
      area_get_height s1.cords - 2 * s1.vpad < area_get_height s1.scrl →
      area_get_height s1.scrl < area_get_height s2.scrl →
      area_get_height (lv_page_sb_refresh s2).sbv ≤
        area_get_height (lv_page_sb_refresh s1).sbv) := by
  constructor
  · intro h0 hfit hr hlt
    have hr2 : area_get_width s2.cords - 2 * s2.hpad < area_get_width s2.scrl := by
      rw [hc, hh]; omega
    rw [sbh_width_scrolling s1 hm1 hr, sbh_width_scrolling s2 hm2 hr2, hc, hh, hw]
    apply tdiv_antitone_den
    · exact mul_nonneg h0 (by omega)
    · omega
    · omega
  · intro h0 hfit hr hlt
    have hr2 : area_get_height s2.cords - 2 * s2.vpad < area_get_height s2.scrl := by
      rw [hc, hv]; omega
    rw [sbv_height_scrolling s1 hm1 hr, sbv_height_scrolling s2 hm2 hr2, hc, hv, hw]
    apply tdiv_antitone_den
    · exact mul_nonneg h0 (by omega)
    · omega
    · omega

/-- Witness for C5: content 400 against content 401 on the example page. -/
theorem lv_page_sb_refresh_thumb_antitone_witness :
    area_get_width page_example.scrl < area_get_width page_example_401.scrl ∧
    area_get_width (lv_page_sb_refresh page_example_401).sbh ≤
      area_get_width (lv_page_sb_refresh page_example).sbh :=
  ⟨by decide,
    (lv_page_sb_refresh_thumb_antitone page_example page_example_401 (by decide) (by decide)
      (by decide) (by decide) (by decide) (by decide)).1
      (by decide) (by decide) (by decide) (by decide)⟩

/-! ## Containment of the bars -/

/-- `lv_page_sb_refresh` keeps the thickness of both bars. -/
theorem lv_page_sb_refresh_thickness (s : Page) :
    area_get_height (lv_page_sb_refresh s).sbh = area_get_height s.sbh ∧
    area_get_width (lv_page_sb_refresh s).sbv = area_get_width s.sbv := by
  by_cases hm : s.sb_mode = lv_page_sb_mode_t.OFF
  · simp [lv_page_sb_refresh, hm]
  · rw [lv_page_sb_refresh_sbh _ hm, sb_refresh_hor_sbh, lv_page_sb_refresh_sbv _ hm,
      sb_refresh_ver_sbv]
    constructor
    · split_ifs <;> simp only [area_get_height] <;> omega
    · split_ifs <;> simp only [area_get_width] <;> omega

/-- `lv_page_set_sb_width` gives both bars the thickness `sb_width`. -/
theorem lv_page_set_sb_width_thickness (s : Page) (w : Int) :
    (lv_page_set_sb_width s w).sb_width = w ∧
    area_get_height (lv_page_set_sb_width s w).sbh = w ∧
    area_get_width (lv_page_set_sb_width s w).sbv = w := by
  simp only [lv_page_set_sb_width, lv_page_sb_refresh_sb_width,
    (lv_page_sb_refresh_thickness _).1, (lv_page_sb_refresh_thickness _).2]
  simp only [area_set_height, area_set_width, area_get_height, area_get_width]
  refine ⟨trivial, ?_, ?_⟩ <;> omega

/-- Horizontal bar of lines 623-637 on a clamped surface: inside the page, possibly empty. -/
theorem sb_refresh_hor_contained (s : Page) (hw : 1 ≤ s.sb_width)
    (hth : area_get_height s.sbh = s.sb_width)
    (hfx : 2 * max s.sb_width s.hpad ≤ area_get_width s.cords)
    (hfy : 2 * max s.sb_width s.vpad ≤ area_get_height s.cords)
    (hcx : clamped_x s) :
    0 ≤ (sb_refresh_hor s).sbh.x1 ∧ (sb_refresh_hor s).sbh.x1 ≤ (sb_refresh_hor s).sbh.x2 + 1 ∧
    (sb_refresh_hor s).sbh.x2 ≤ area_get_width s.cords - 1 ∧
    0 ≤ (sb_refresh_hor s).sbh.y1 ∧ (sb_refresh_hor s).sbh.y1 ≤ (sb_refresh_hor s).sbh.y2 ∧
    (sb_refresh_hor s).sbh.y2 ≤ area_get_height s.cords - 1 := by
  rw [sb_refresh_hor_sbh, MATH_MAX_eq_max]
  split_ifs with hr
  · simp only
    refine ⟨?_, ?_, ?_, ?_, ?_, ?_⟩ <;> omega
  · have hD : area_get_width s.cords < area_get_width s.scrl + 2 * s.hpad := by omega
    have hT : 0 ≤ area_get_width s.cords - 2 * max s.sb_width s.hpad := by omega
    have hW : 0 ≤ area_get_width s.cords := by omega
    obtain ⟨hs0, hs1⟩ := tdiv_mul_bounds (area_get_width s.cords)
      (area_get_width s.cords - 2 * max s.sb_width s.hpad)
      (area_get_width s.scrl + 2 * s.hpad) hW (le_of_lt hD) hT (by omega)
    have hclamp : s.scrl.x1 ≤ s.cords.x1 + s.hpad ∧ s.cords.x2 - s.hpad ≤ s.scrl.x2 := by
      have h := hcx
      simp only [clamped_x] at h
      rw [if_neg (by omega)] at h
      exact h
    obtain ⟨ho0, ho1⟩ := tdiv_mul_bounds (-(lv_obj_get_x s - s.hpad))
      (area_get_width s.cords -
        Int.tdiv (area_get_width s.cords * (area_get_width s.cords - 2 * max s.sb_width s.hpad))
          (area_get_width s.scrl + 2 * s.hpad) - 2 * max s.sb_width s.hpad)
      (area_get_width s.scrl + 2 * s.hpad - area_get_width s.cords)
      (by simp only [lv_obj_get_x]; omega)
      (by simp only [lv_obj_get_x, area_get_width]; omega) (by omega) (by omega)
    simp only
    refine ⟨?_, ?_, ?_, ?_, ?_, ?_⟩ <;> omega

/-- Vertical bar of lines 639-654 on a clamped surface: inside the page, possibly empty. -/
theorem sb_refresh_ver_contained (s : Page) (hw : 1 ≤ s.sb_width)
    (htv : area_get_width s.sbv = s.sb_width)
    (hfx : 2 * max s.sb_width s.hpad ≤ area_get_width s.cords)
    (hfy : 2 * max s.sb_width s.vpad ≤ area_get_height s.cords)
    (hcy : clamped_y s) :
    0 ≤ (sb_refresh_ver s).sbv.x1 ∧ (sb_refresh_ver s).sbv.x1 ≤ (sb_refresh_ver s).sbv.x2 ∧
    (sb_refresh_ver s).sbv.x2 ≤ area_get_width s.cords - 1 ∧
    0 ≤ (sb_refresh_ver s).sbv.y1 ∧ (sb_refresh_ver s).sbv.y1 ≤ (sb_refresh_ver s).sbv.y2 + 1 ∧
    (sb_refresh_ver s).sbv.y2 ≤ area_get_height s.cords - 1 := by
  rw [sb_refresh_ver_sbv, MATH_MAX_eq_max]
  split_ifs with hr
  · simp only
    refine ⟨?_, ?_, ?_, ?_, ?_, ?_⟩ <;> omega
  · have hD : area_get_height s.cords < area_get_height s.scrl + 2 * s.vpad := by omega
    have hT : 0 ≤ area_get_height s.cords - 2 * max s.sb_width s.vpad := by omega
    have hH : 0 ≤ area_get_height s.cords := by omega
    obtain ⟨hs0, hs1⟩ := tdiv_mul_bounds (area_get_height s.cords)
      (area_get_height s.cords - 2 * max s.sb_width s.vpad)
      (area_get_height s.scrl + 2 * s.vpad) hH (le_of_lt hD) hT (by omega)
    have hclamp : s.scrl.y1 ≤ s.cords.y1 + s.vpad ∧ s.cords.y2 - s.vpad ≤ s.scrl.y2 := by
      have h := hcy
      simp only [clamped_y] at h
      rw [if_neg (by omega)] at h
      exact h
    obtain ⟨ho0, ho1⟩ := tdiv_mul_bounds (-(lv_obj_get_y s - s.vpad))
      (area_get_height s.cords -
        Int.tdiv (area_get_height s.cords *
            (area_get_height s.cords - 2 * max s.sb_width s.vpad))
          (area_get_height s.scrl + 2 * s.vpad) - 2 * max s.sb_width s.vpad)
      (area_get_height s.scrl + 2 * s.vpad - area_get_height s.cords)
      (by simp only [lv_obj_get_y]; omega)
      (by simp only [lv_obj_get_y, area_get_height]; omega) (by omega) (by omega)
    simp only
    refine ⟨?_, ?_, ?_, ?_, ?_, ?_⟩ <;> omega

/-- C6, as stated, fails: on a page of 100 x 100 with padding 5 whose thickness 10 was set by
`lv_page_set_sb_width` and whose content surface of 8000 x 60 satisfies the clamp, the thumb
length is 100 * 80 / 8010 = 0 and the horizontal bar is (10, 90)-(9, 99): `x1 <= x2` does not
hold. -/
theorem lv_page_sb_refresh_bar_empty_counterexample :
    clamped_x page_long ∧ clamped_y page_long ∧
    (lv_page_set_sb_width page_long 10).sbh = ⟨10, 90, 9, 99⟩ ∧
    (lv_page_sb_refresh (lv_page_set_sb_width page_long 10)).sbh = ⟨10, 90, 9, 99⟩ ∧
    ¬ ((lv_page_sb_refresh (lv_page_set_sb_width page_long 10)).sbh.x1 ≤
        (lv_page_sb_refresh (lv_page_set_sb_width page_long 10)).sbh.x2) := by
  decide

/-- C6, amended. Bar containment: in every mode other than OFF, for a thickness of at least 1
that both bars carry (as `lv_page_set_sb_width` sets it), a page whose extents are at least
`2 * effPad` on both axes and a content surface that satisfies the clamp, the bar rectangles
produced by `lv_page_sb_refresh` lie inside the page's own bounds, `0 <= x1`, `x2 <= width - 1`,
`0 <= y1`, `y2 <= height - 1`; across its thickness each bar is non-empty, along its length it
may be empty (`near <= far + 1`, the thumb length being 0 for very long content). -/
theorem lv_page_sb_refresh_bars_contained (s : Page)
    (hmode : s.sb_mode ≠ lv_page_sb_mode_t.OFF) (hw : 1 ≤ s.sb_width)
    (hth : area_get_height s.sbh = s.sb_width) (htv : area_get_width s.sbv = s.sb_width)
    (hfx : 2 * max s.sb_width s.hpad ≤ area_get_width s.cords)
    (hfy : 2 * max s.sb_width s.vpad ≤ area_get_height s.cords)
    (hcx : clamped_x s) (hcy : clamped_y s) :
    (0 ≤ (lv_page_sb_refresh s).sbh.x1 ∧
      (lv_page_sb_refresh s).sbh.x1 ≤ (lv_page_sb_refresh s).sbh.x2 + 1 ∧
      (lv_page_sb_refresh s).sbh.x2 ≤ area_get_width s.cords - 1 ∧
      0 ≤ (lv_page_sb_refresh s).sbh.y1 ∧
      (lv_page_sb_refresh s).sbh.y1 ≤ (lv_page_sb_refresh s).sbh.y2 ∧
      (lv_page_sb_refresh s).sbh.y2 ≤ area_get_height s.cords - 1) ∧
    (0 ≤ (lv_page_sb_refresh s).sbv.x1 ∧
      (lv_page_sb_refresh s).sbv.x1 ≤ (lv_page_sb_refresh s).sbv.x2 ∧
      (lv_page_sb_refresh s).sbv.x2 ≤ area_get_width s.cords - 1 ∧
      0 ≤ (lv_page_sb_refresh s).sbv.y1 ∧
      (lv_page_sb_refresh s).sbv.y1 ≤ (lv_page_sb_refresh s).sbv.y2 + 1 ∧
      (lv_page_sb_refresh s).sbv.y2 ≤ area_get_height s.cords - 1) := by
  rw [lv_page_sb_refresh_sbh s hmode, lv_page_sb_refresh_sbv s hmode]
  exact ⟨sb_refresh_hor_contained s hw hth hfx hfy hcx,
    sb_refresh_ver_contained s hw htv hfx hfy hcy⟩

/-- Witness for C6: the example page (thickness 10 on both bars, content clamped). -/
theorem lv_page_sb_refresh_bars_contained_witness :
    (0 ≤ (lv_page_sb_refresh page_example).sbh.x1 ∧
      (lv_page_sb_refresh page_example).sbh.x1 ≤ (lv_page_sb_refresh page_example).sbh.x2 + 1 ∧
      (lv_page_sb_refresh page_example).sbh.x2 ≤ area_get_width page_example.cords - 1 ∧
      0 ≤ (lv_page_sb_refresh page_example).sbh.y1 ∧
      (lv_page_sb_refresh page_example).sbh.y1 ≤ (lv_page_sb_refresh page_example).sbh.y2 ∧
      (lv_page_sb_refresh page_example).sbh.y2 ≤ area_get_height page_example.cords - 1) ∧
    (0 ≤ (lv_page_sb_refresh page_example).sbv.x1 ∧
      (lv_page_sb_refresh page_example).sbv.x1 ≤ (lv_page_sb_refresh page_example).sbv.x2 ∧
      (lv_page_sb_refresh page_example).sbv.x2 ≤ area_get_width page_example.cords - 1 ∧
      0 ≤ (lv_page_sb_refresh page_example).sbv.y1 ∧
      (lv_page_sb_refresh page_example).sbv.y1 ≤ (lv_page_sb_refresh page_example).sbv.y2 + 1 ∧
      (lv_page_sb_refresh page_example).sbv.y2 ≤ area_get_height page_example.cords - 1) :=
  lv_page_sb_refresh_bars_contained page_example (by decide) (by decide) (by decide) (by decide)
    (by decide) (by decide) (by decide) (by decide)

/-! ## Visibility flags -/

theorem sb_refresh_hor_sbh_draw (s : Page) :
    (sb_refresh_hor s).sbh_draw =
      if s.sb_mode = lv_page_sb_mode_t.AUTO then
        decide (¬ area_get_width s.scrl ≤ area_get_width s.cords - 2 * s.hpad)
      else s.sbh_draw := by
  simp only [sb_refresh_hor]
  split_ifs <;> simp_all

theorem sb_refresh_ver_sbv_draw (s : Page) :
    (sb_refresh_ver s).sbv_draw =
      if s.sb_mode = lv_page_sb_mode_t.AUTO then
        decide (¬ area_get_height s.scrl ≤ area_get_height s.cords - 2 * s.vpad)
      else s.sbv_draw := by
  simp only [sb_refresh_ver]
  split_ifs <;> simp_all

/-- In mode AUTO the refreshed flags are the regime tests of lines 624 and 640. -/
theorem lv_page_sb_refresh_draw_auto (s : Page) (hm : s.sb_mode = lv_page_sb_mode_t.AUTO) :
    (lv_page_sb_refresh s).sbh_draw =
      decide (¬ area_get_width s.scrl ≤ area_get_width s.cords - 2 * s.hpad) ∧
    (lv_page_sb_refresh s).sbv_draw =
      decide (¬ area_get_height s.scrl ≤ area_get_height s.cords - 2 * s.vpad) := by
  simp [lv_page_sb_refresh, hm, sb_refresh_hor_sbh_draw, sb_refresh_ver_sbv_draw]

/-- C7. AUTO visibility: in mode AUTO, after `lv_page_sb_refresh` the flag of each axis is 0
exactly when the content extent is at most the viewport extent minus twice the style padding on
that axis and 1 otherwise, whatever the other axis and the previous flags are; on the example page
(viewport 200 x 100, padding 5, content 400 x 60) the horizontal bar is visible and the vertical
bar hidden. -/
theorem lv_page_sb_refresh_auto_visibility (s : Page)
    (hm : s.sb_mode = lv_page_sb_mode_t.AUTO) :
    ((lv_page_sb_refresh s).sbh_draw = false ↔
      area_get_width s.scrl ≤ area_get_width s.cords - 2 * s.hpad) ∧
    ((lv_page_sb_refresh s).sbh_draw = true ↔
      ¬ area_get_width s.scrl ≤ area_get_width s.cords - 2 * s.hpad) ∧
    ((lv_page_sb_refresh s).sbv_draw = false ↔
      area_get_height s.scrl ≤ area_get_height s.cords - 2 * s.vpad) ∧
    ((lv_page_sb_refresh s).sbv_draw = true ↔
      ¬ area_get_height s.scrl ≤ area_get_height s.cords - 2 * s.vpad) ∧
    (lv_page_sb_refresh page_example).sbh_draw = true ∧
    (lv_page_sb_refresh page_example).sbv_draw = false := by
  obtain ⟨hh, hv⟩ := lv_page_sb_refresh_draw_auto s hm
  rw [hh, hv]
  refine ⟨?_, ?_, ?_, ?_, by decide, by decide⟩ <;> simp

/-- Witness for C7: the example page is in mode AUTO; its content is wider than the viewport
minus the paddings and its horizontal flag is set. -/
theorem lv_page_sb_refresh_auto_visibility_witness :
    page_example.sb_mode = lv_page_sb_mode_t.AUTO ∧
    ¬ area_get_width page_example.scrl ≤
        area_get_width page_example.cords - 2 * page_example.hpad ∧
    (lv_page_sb_refresh page_example).sbh_draw = true :=
  ⟨by decide, by decide,
    (lv_page_sb_refresh_auto_visibility page_example (by decide)).2.1.mpr (by decide)⟩

/-! ## Drag begin -/

/-- C8, the code at a failing input. On `page_drag` (mode DRAG, page 200 x 100, content surface
400 x 95, padding 5, thickness 10, both bars hidden) the vertical thumb is 76 long, smaller than
the page extent minus `2 * effPad` (100 - 20 = 80), yet `LV_SIGNAL_DRAG_BEGIN` leaves the vertical
bar hidden: line 283 subtracts `2 * effPad` from the extent of the content surface (95 - 20 = 75)
instead of the page.  `lv_page_sb_refresh` takes the full-length bar (lines 625, 641) from the
page, and on the same geometry in mode AUTO (`page_drag_auto`) it computes the same thumb and
shows it. -/
theorem lv_scrl_signal_drag_begin_divergence :
    page_drag.sb_mode = lv_page_sb_mode_t.DRAG ∧ page_drag.sbv_draw = false ∧
    area_get_height page_drag.cords = 100 ∧ area_get_height page_drag.scrl = 95 ∧
    max page_drag.sb_width page_drag.vpad = 10 ∧
    area_get_height page_drag.sbv = 76 ∧
    area_get_height page_drag.sbv <
      area_get_height page_drag.cords - 2 * max page_drag.sb_width page_drag.vpad ∧
    ¬ (area_get_height page_drag.sbv <
      area_get_height page_drag.scrl - 2 * max page_drag.sb_width page_drag.vpad) ∧
    Option.map Page.sbv_draw (lv_scrl_signal 1 page_drag lv_signal_t.DRAG_BEGIN) =
      some false ∧
    Option.map Page.sbh_draw (lv_scrl_signal 1 page_drag lv_signal_t.DRAG_BEGIN) =
      some true ∧
    page_drag_auto.cords = page_drag.cords ∧ page_drag_auto.scrl = page_drag.scrl ∧
    page_drag_auto.sbv = page_drag.sbv ∧ page_drag_auto.sbv_draw = true := by
  decide

/-- The `LV_SIGNAL_DRAG_BEGIN` branch as lines 279-290 compute it: the handler returns; in mode
DRAG an axis's flag is set when the bar's length is smaller than the extent of the content
surface minus `2 * effPad` and kept otherwise, nothing else changes; in any other mode the state
is returned unchanged. -/
theorem lv_scrl_signal_drag_begin (fuel : Nat) (s : Page) :
    ∃ s1, lv_scrl_signal (fuel + 1) s lv_signal_t.DRAG_BEGIN = some s1 ∧
      (s.sb_mode = lv_page_sb_mode_t.DRAG →
        (s1.sbh_draw = true ↔ s.sbh_draw = true ∨
          area_get_width s.sbh < area_get_width s.scrl - 2 * max s.sb_width s.hpad) ∧
        (s1.sbv_draw = true ↔ s.sbv_draw = true ∨
          area_get_height s.sbv < area_get_height s.scrl - 2 * max s.sb_width s.vpad) ∧
        s1 = { s with sbh_draw := s1.sbh_draw, sbv_draw := s1.sbv_draw }) ∧
      (s.sb_mode ≠ lv_page_sb_mode_t.DRAG → s1 = s) := by
  refine ⟨scrl_drag_begin s, by simp [lv_scrl_signal], ?_, ?_⟩
  · intro hm
    rcases s with ⟨pc, oc, hpad, vpad, m, w, bh, bv, dh, dv, l, a⟩
    simp only at hm
    simp only [scrl_drag_begin, if_pos hm, MATH_MAX_eq_max]
    split_ifs <;> simp_all
  · intro hm
    simp [scrl_drag_begin, hm]

/-! ## Redraw regions -/

/-- C9, the code at a failing input. On `page_shifted` (page at (10, 20)-(209, 119), mode AUTO)
`lv_page_sb_refresh` computes the local horizontal bar (10, 90)-(96, 99); `lv_page_design` draws
it at the page origin plus the local rectangle, (20, 110)-(106, 119), but the area marked for
redraw is (20, 110)-(305, 218): lines 661-662 add the page's `x2, y2` to the bar's `x2, y2`.  The
`LV_SIGNAL_DRAG_END` branch (lines 299-300) does the same on `page_drag` once DragBegin has shown
the horizontal bar. -/
theorem lv_page_sb_refresh_inv_area_divergence :
    (lv_page_sb_refresh page_shifted).sbh = ⟨10, 90, 96, 99⟩ ∧
    lv_page_design_sb (lv_page_sb_refresh page_shifted) = [⟨20, 110, 106, 119⟩] ∧
    (lv_page_sb_refresh page_shifted).inv_areas = [⟨20, 110, 305, 218⟩] ∧
    lv_page_design_sb (scrl_drag_begin page_drag) = [⟨10, 90, 96, 99⟩] ∧
    Option.map Page.inv_areas
        (lv_scrl_signal 1 (scrl_drag_begin page_drag) lv_signal_t.DRAG_END) =
      some [⟨10, 90, 295, 198⟩] := by
  decide

/-! ## Focus -/

/-- C10. `lv_page_focus` is a no-op on a visible target: when the target is not higher than the
viewport and lies fully within it (`top_err <= 0` and `bot_err <= 0`), the function returns with
the state as it was, no position written and no animation created, for every `anim_time`. -/
theorem lv_page_focus_visible_noop (fuel : Nat) (s : Page) (obj : area_t)
    (style_scrl_vpad : Int) (anim_time : Nat)
    (hh : area_get_height obj ≤ area_get_height s.cords)
    (ht : focus_top_err s obj ≤ 0) (hb : focus_bot_err s obj ≤ 0) :
    lv_page_focus_y s obj style_scrl_vpad = none ∧
    lv_page_focus fuel s obj style_scrl_vpad anim_time = some s := by
  have hy : lv_page_focus_y s obj style_scrl_vpad = none := by
    simp only [lv_page_focus_y]
    rw [if_neg (by omega), if_neg (by omega)]
  exact ⟨hy, by simp only [lv_page_focus, hy]⟩

/-- Witness for C10: `obj_inside` lies within the viewport of the example page; focusing on it
with an animation time of 300 ms changes nothing. -/
theorem lv_page_focus_visible_noop_witness :
    area_get_height obj_inside ≤ area_get_height page_example.cords ∧
    focus_top_err page_example obj_inside ≤ 0 ∧ focus_bot_err page_example obj_inside ≤ 0 ∧
    lv_page_focus 0 page_example obj_inside 5 300 = some page_example :=
  ⟨by decide, by decide, by decide,
    (lv_page_focus_visible_noop 0 page_example obj_inside 5 300 (by decide) (by decide)
      (by decide)).2⟩

/-- C11, the code at a failing input. On `page_scrolled` (viewport height 100, page padding 5)
the target `obj_low` is 90 high, so not higher than the viewport, and sticks out 45 pixels above
it.  `lv_page_focus` with `anim_time = 0` and a surface padding of 5 writes the surface position
y = -35; with the target moved along, the recomputed `top_err` is -15 but `bot_err` is 5: the last
5 pixel rows of the target are now below the viewport, the target is not fully inside.  By the
function's own test it is "out of the page on the bottom": a second call would write y = -45. -/
theorem lv_page_focus_not_inside_divergence :
    area_get_height obj_low ≤ area_get_height page_scrolled.cords ∧
    focus_top_err page_scrolled obj_low = 45 ∧
    lv_page_focus_y page_scrolled obj_low 5 = some (-35) ∧
    Option.map
        (fun s => (lv_obj_get_y s,
          focus_top_err s (child_follow page_scrolled.scrl s.scrl obj_low),
          focus_bot_err s (child_follow page_scrolled.scrl s.scrl obj_low)))
        (lv_page_focus 2 page_scrolled obj_low 5 0) =
      some (-35, -15, 5) ∧
    Option.bind (lv_page_focus 2 page_scrolled obj_low 5 0)
        (fun s => lv_page_focus_y s (child_follow page_scrolled.scrl s.scrl obj_low) 5) =
      some (-45) := by
  decide

/-- C12. Focus on a tall target: for a target higher than the viewport `lv_page_focus` aligns the
top (new surface y = `-obj_y + 2 * surfaceVPad + pageVPad`) when `top_err < bot_err` and the
bottom (new surface y = `-obj_y + page_h - obj_h - surfaceVPad`) otherwise; it never returns at
"already in focus": with `anim_time = 0` the position is written, otherwise an animation to it is
created. -/
theorem lv_page_focus_tall (fuel : Nat) (s : Page) (obj : area_t) (style_scrl_vpad : Int)
    (h : area_get_height obj > area_get_height s.cords) :
    (focus_top_err s obj < focus_bot_err s obj →
      lv_page_focus_y s obj style_scrl_vpad =
        some (-(obj.y1 - s.scrl.y1) + 2 * style_scrl_vpad + s.vpad)) ∧
    (¬ focus_top_err s obj < focus_bot_err s obj →
      lv_page_focus_y s obj style_scrl_vpad =
        some (-(obj.y1 - s.scrl.y1) + area_get_height s.cords - area_get_height obj -
          style_scrl_vpad)) ∧
    ∃ y, lv_page_focus_y s obj style_scrl_vpad = some y ∧
      lv_page_focus fuel s obj style_scrl_vpad 0 =
        lv_obj_set_pos (fun s1 => lv_scrl_signal fuel s1 lv_signal_t.CORD_CHG) s
          (lv_obj_get_x s) y ∧
      ∀ anim_time, anim_time ≠ 0 →
        lv_page_focus fuel s obj style_scrl_vpad anim_time =
          some { s with anims := s.anims ++
            [{ start := lv_obj_get_y s, end_ := y, time := anim_time }] } := by
  have h1 : focus_top_err s obj < focus_bot_err s obj →
      lv_page_focus_y s obj style_scrl_vpad =
        some (-(obj.y1 - s.scrl.y1) + 2 * style_scrl_vpad + s.vpad) := by
    intro hlt
    simp only [lv_page_focus_y]
    rw [if_pos (Or.inr ⟨h, hlt⟩)]
    congr 1
    ring
  have h2 : ¬ focus_top_err s obj < focus_bot_err s obj →
      lv_page_focus_y s obj style_scrl_vpad =
        some (-(obj.y1 - s.scrl.y1) + area_get_height s.cords - area_get_height obj -
          style_scrl_vpad) := by
    intro hge
    simp only [lv_page_focus_y]
    rw [if_neg (by rintro (⟨h3, -⟩ | ⟨-, h3⟩) <;> omega), if_pos (Or.inr ⟨h, by omega⟩)]
    congr 1
    ring
  have h3 : ∃ y, lv_page_focus_y s obj style_scrl_vpad = some y := by
    by_cases hlt : focus_top_err s obj < focus_bot_err s obj
    · exact ⟨_, h1 hlt⟩
    · exact ⟨_, h2 hlt⟩
  obtain ⟨y, hy⟩ := h3
  refine ⟨h1, h2, y, hy, ?_, ?_⟩
  · simp only [lv_page_focus, hy, if_true]
  · intro anim_time hne
    simp only [lv_page_focus, hy, if_neg hne]

/-- Witness for C12: `obj_tall` (150 high in a viewport of 100) has `top_err = 45` and
`bot_err = 5`, so the bottom is aligned: the new surface y is -105. -/
theorem lv_page_focus_tall_witness :
    area_get_height obj_tall > area_get_height page_scrolled.cords ∧
    ¬ focus_top_err page_scrolled obj_tall < focus_bot_err page_scrolled obj_tall ∧
    lv_page_focus_y page_scrolled obj_tall 5 =
      some (-(obj_tall.y1 - page_scrolled.scrl.y1) + area_get_height page_scrolled.cords -
        area_get_height obj_tall - 5) :=
  ⟨by decide, by decide,
    (lv_page_focus_tall 0 page_scrolled obj_tall 5 (by decide)).2.1 (by decide)⟩

/-! ## Modes OFF and ON -/

/-- In mode ON both flags are set after the refresh. -/
theorem lv_page_sb_refresh_draw_on (s : Page) (hm : s.sb_mode = lv_page_sb_mode_t.ON) :
    (lv_page_sb_refresh s).sbh_draw = true ∧ (lv_page_sb_refresh s).sbv_draw = true := by
  simp [lv_page_sb_refresh, hm, sb_refresh_hor_sbh_draw, sb_refresh_ver_sbv_draw]

/-- C19. Modes OFF and ON: in mode OFF `lv_page_sb_refresh` returns the state as it is (no bar
rectangle, no visibility flag changed, nothing marked for redraw), and `lv_page_set_sb_mode` with
OFF returns with both bars hidden; in mode ON both visibility flags are 1 after
`lv_page_sb_refresh`, for every geometry. -/
theorem lv_page_sb_modes_off_on (fuel : Nat) (s : Page) (o : PageObj) :
    (s.sb_mode = lv_page_sb_mode_t.OFF → lv_page_sb_refresh s = s) ∧
    (∃ o1, lv_page_set_sb_mode fuel o lv_page_sb_mode_t.OFF = some o1 ∧
      o1.page.sb_mode = lv_page_sb_mode_t.OFF ∧
      o1.page.sbh_draw = false ∧ o1.page.sbv_draw = false) ∧
    (s.sb_mode = lv_page_sb_mode_t.ON →
      (lv_page_sb_refresh s).sbh_draw = true ∧ (lv_page_sb_refresh s).sbv_draw = true) := by
  refine ⟨?_, ?_, lv_page_sb_refresh_draw_on s⟩
  · intro hm
    simp [lv_page_sb_refresh, hm]
  · refine ⟨_, rfl, ?_⟩
    simp [lv_page_sb_refresh]

/-- Witness for C19: the example page in mode OFF is left as it is, in mode ON both flags are
set. -/
theorem lv_page_sb_modes_off_on_witness :
    page_example_off.sb_mode = lv_page_sb_mode_t.OFF ∧
    lv_page_sb_refresh page_example_off = page_example_off ∧
    page_example_on.sb_mode = lv_page_sb_mode_t.ON ∧
    (lv_page_sb_refresh page_example_on).sbh_draw = true ∧
    (lv_page_sb_refresh page_example_on).sbv_draw = true :=
  ⟨by decide,
    (lv_page_sb_modes_off_on 0 page_example_off page_obj_example).1 (by decide),
    by decide,
    (lv_page_sb_modes_off_on 0 page_example_on page_obj_example).2.2 (by decide)⟩

/-! ## Re-parenting -/

theorem ll_get_next_append (pre rest : List lv_obj_child_t) (c : lv_obj_child_t)
    (h : ∀ x ∈ pre, x.id ≠ c.id) : ll_get_next (pre ++ c :: rest) c = rest.head? := by
  induction pre with
  | nil => simp [ll_get_next]
  | cons x xs ih =>
    have hx : x.id ≠ c.id := h x (List.mem_cons_self x xs)
    simp only [List.cons_append, ll_get_next, if_neg hx]
    exact ih (fun y hy => h y (List.mem_cons_of_mem x hy))

theorem filter_id_ne_append (pre rest : List lv_obj_child_t) (c : lv_obj_child_t)
    (hpre : ∀ x ∈ pre, x.id ≠ c.id) (hrest : ∀ x ∈ rest, x.id ≠ c.id) :
    (pre ++ c :: rest).filter (fun x => decide (x.id ≠ c.id)) = pre ++ rest := by
  rw [List.filter_append, List.filter_cons_of_neg (by simp)]
  congr 1
  · exact List.filter_eq_self.mpr (fun x hx => by simpa using hpre x hx)
  · exact List.filter_eq_self.mpr (fun x hx => by simpa using hrest x hx)

/-- The loop of lines 144-152 from any point of the walk: `pre` holds the children already
passed (all protected, still in the page's list), `rest` the ones from the loop variable on. -/
theorem page_child_chg_loop_spec (rest : List lv_obj_child_t) :
    ∀ (pre : List lv_obj_child_t) (o : PageObj) (seen : List lv_obj_child_t) (fuel : Nat),
      o.child_ll = pre ++ rest →
      (pre ++ rest).Pairwise (fun a b => a.id ≠ b.id) →
      rest.length ≤ fuel →
      page_child_chg_loop fuel o rest.head? seen =
        some ({ o with
                child_ll := pre ++ rest.filter (fun c => c.protect_parent),
                scrl_child_ll :=
                  (rest.filter (fun c => !c.protect_parent)).reverse ++ o.scrl_child_ll },
              seen ++ rest) := by
  induction rest with
  | nil =>
    intro pre o seen fuel ho _ _
    cases fuel <;> simp [page_child_chg_loop, ← ho]
  | cons c r ih =>
    intro pre o seen fuel ho hp hf
    obtain ⟨f, rfl⟩ : ∃ f, fuel = f + 1 := ⟨fuel - 1, by simp at hf; omega⟩
    have hlen : r.length ≤ f := by simp at hf; omega
    rw [List.pairwise_append] at hp
    obtain ⟨hpp, hcr, hpc⟩ := hp
    rw [List.pairwise_cons] at hcr
    obtain ⟨hc, hrr⟩ := hcr
    have hprec : ∀ x ∈ pre, x.id ≠ c.id := fun x hx => hpc x hx c (List.mem_cons_self c r)
    have hnext : lv_obj_get_child o.child_ll (some c) = r.head? := by
      simp only [lv_obj_get_child, ho]
      exact ll_get_next_append pre r c hprec
    simp only [List.head?_cons, page_child_chg_loop, hnext]
    by_cases hprot : c.protect_parent = false
    · rw [if_pos hprot]
      have hrc : ∀ x ∈ r, x.id ≠ c.id := fun x hx => (hc x hx).symm
      have ho1 : (lv_obj_set_parent o c).child_ll = pre ++ r := by
        simp only [lv_obj_set_parent, ho]
        exact filter_id_ne_append pre r c hprec hrc
      have hp1 : (pre ++ r).Pairwise (fun a b => a.id ≠ b.id) := by
        rw [List.pairwise_append]
        exact ⟨hpp, hrr, fun a ha b hb => hpc a ha b (List.mem_cons_of_mem c hb)⟩
      rw [ih pre (lv_obj_set_parent o c) (seen ++ [c]) f ho1 hp1 hlen]
      simp [lv_obj_set_parent, hprot]
    · rw [if_neg hprot]
      have hprot1 : c.protect_parent = true := by simpa using hprot
      have ho1 : o.child_ll = (pre ++ [c]) ++ r := by simp [ho]
      have hp1 : ((pre ++ [c]) ++ r).Pairwise (fun a b => a.id ≠ b.id) := by
        rw [List.append_assoc, List.pairwise_append]
        exact ⟨hpp, by simpa using List.pairwise_cons.mpr ⟨hc, hrr⟩, by simpa using hpc⟩
      rw [ih (pre ++ [c]) o (seen ++ [c]) f ho1 hp1 hlen]
      simp [hprot1]

/-- C20. Re-parenting: for every child list of the page (distinct objects) `lv_page_signal`
returns from one `LV_SIGNAL_CHILD_CHG`; afterwards every direct child without
`LV_PROTECT_PARENT` is a child of the content surface and no longer of the page, every
parent-protected child is still a direct child of the page, and the children the content surface
had are still there; the loop body ran on each child of the list exactly once, in list order,
before the loop ended. -/
theorem lv_page_signal_child_chg (fuel : Nat) (o : PageObj)
    (hdistinct : o.child_ll.Pairwise (fun a b => a.id ≠ b.id))
    (hfuel : o.child_ll.length ≤ fuel) :
    ∃ o1, lv_page_signal fuel o lv_signal_t.CHILD_CHG none = some o1 ∧
      page_child_chg_loop fuel o (lv_obj_get_child o.child_ll none) [] =
        some (o1, o.child_ll) ∧
      o1.page = o.page ∧
      o1.child_ll = o.child_ll.filter (fun c => c.protect_parent) ∧
      (∀ c ∈ o.child_ll, c.protect_parent = false →
        c ∈ o1.scrl_child_ll ∧ c ∉ o1.child_ll) ∧
      (∀ c ∈ o.child_ll, c.protect_parent = true → c ∈ o1.child_ll) ∧
      (∀ c ∈ o.scrl_child_ll, c ∈ o1.scrl_child_ll) := by
  have h := page_child_chg_loop_spec o.child_ll [] o [] fuel (by simp) (by simpa using hdistinct)
    hfuel
  simp only [List.nil_append] at h
  refine ⟨_, ?_, h, rfl, rfl, ?_, ?_, ?_⟩
  · simp only [lv_page_signal, lv_obj_get_child, h, Option.map_some']
  · intro c hc hprot
    simp [hc, hprot]
  · intro c hc hprot
    simp [hc, hprot]
  · intro c hc
    simp [hc]

/-- Witness for C20: the page of `page_obj_example` with the children 3, 0 (protected),
2 (protected), 1 keeps 0 and 2; 1 and 3 join child 7 under the content surface. -/
theorem lv_page_signal_child_chg_witness :
    page_obj_example.child_ll.Pairwise (fun a b => a.id ≠ b.id) ∧
    ∃ o1, lv_page_signal 4 page_obj_example lv_signal_t.CHILD_CHG none = some o1 ∧
      o1.child_ll = [⟨0, true⟩, ⟨2, true⟩] ∧
      (∀ c ∈ page_obj_example.child_ll, c.protect_parent = false → c ∈ o1.scrl_child_ll) := by
  refine ⟨by decide, ?_⟩
  obtain ⟨o1, h, -, -, hl, hmove, -, -⟩ :=
    lv_page_signal_child_chg 4 page_obj_example (by decide) (by decide)
  exact ⟨o1, h, by rw [hl]; decide, fun c hc hp => (hmove c hc hp).1⟩

/-! ## Thumb travel -/

/-- Outside mode OFF, in the scrolling regime, the refreshed horizontal bar starts at the offset
of lines 632-634. -/
theorem sbh_x1_scrolling (s : Page) (hmode : s.sb_mode ≠ lv_page_sb_mode_t.OFF)
    (hx : area_get_width s.scrl > area_get_width s.cords - 2 * s.hpad) :
    (lv_page_sb_refresh s).sbh.x1 =
      max s.sb_width s.hpad +
        Int.tdiv (-(lv_obj_get_x s - s.hpad) *
            (area_get_width s.cords - area_get_width (lv_page_sb_refresh s).sbh -
              2 * max s.sb_width s.hpad))
          (area_get_width s.scrl + 2 * s.hpad - area_get_width s.cords) := by
  rw [sbh_width_scrolling s hmode hx, lv_page_sb_refresh_sbh s hmode, sb_refresh_hor_sbh,
    if_neg (not_le.mpr hx), MATH_MAX_eq_max]

/-- Outside mode OFF, in the scrolling regime, the refreshed vertical bar starts at the offset
of lines 649-651. -/
theorem sbv_y1_scrolling (s : Page) (hmode : s.sb_mode ≠ lv_page_sb_mode_t.OFF)
    (hy : area_get_height s.scrl > area_get_height s.cords - 2 * s.vpad) :
    (lv_page_sb_refresh s).sbv.y1 =
      max s.sb_width s.vpad +
        Int.tdiv (-(lv_obj_get_y s - s.vpad) *
            (area_get_height s.cords - area_get_height (lv_page_sb_refresh s).sbv -
              2 * max s.sb_width s.vpad))
          (area_get_height s.scrl + 2 * s.vpad - area_get_height s.cords) := by
  rw [sbv_height_scrolling s hmode hy, lv_page_sb_refresh_sbv s hmode, sb_refresh_ver_sbv,
    if_neg (not_le.mpr hy), MATH_MAX_eq_max]

/-- The offset `P + (-(x - pad)) * T / E` of the thumb as a function of the surface position `x`:
`P` at `x = pad`, `P + T` at the fully scrolled position `pad - E`, and within `P .. P + T` in
between when the track length `T` is not negative. -/
theorem thumb_offset_travel (P x pad T E : Int) (hE : 0 < E) :
    (x = pad → P + Int.tdiv (-(x - pad) * T) E = P) ∧
    (x = pad - E → P + Int.tdiv (-(x - pad) * T) E = P + T) ∧
    (0 ≤ T → pad - E ≤ x → x ≤ pad →
      P ≤ P + Int.tdiv (-(x - pad) * T) E ∧ P + Int.tdiv (-(x - pad) * T) E ≤ P + T) := by
  refine ⟨?_, ?_, ?_⟩
  · intro h
    subst h
    simp
  · intro h
    subst h
    have h1 : -(pad - E - pad) = E := by ring
    rw [h1, Int.mul_tdiv_cancel_left T (ne_of_gt hE)]
  · intro hT h1 h2
    obtain ⟨ha, hb⟩ := tdiv_mul_bounds (-(x - pad)) T E (by omega) (by omega) hT hE
    constructor <;> omega

/-- The track length `W - thumb - 2 * P` is not negative when the viewport extent `W` is at least
`2 * P` and the divisor `D` of the thumb length exceeds `W`. -/
theorem track_length_nonneg (W P D : Int) (hW : 0 ≤ W) (hP : 2 * P ≤ W) (hD : W < D) :
    0 ≤ W - Int.tdiv (W * (W - 2 * P)) D - 2 * P := by
  obtain ⟨-, hb⟩ := tdiv_mul_bounds W (W - 2 * P) D hW (le_of_lt hD) (by omega) (by omega)
  omega

/-- C21, as stated, fails. On `page_tiny` (viewport 10 wide, thickness 10, so `effPad = 10`;
padding 5; content 100 wide, so scrolling regime; surface at x = -40, between the fully scrolled
position -95 and the padding 5; mode AUTO) `lv_page_sb_refresh` gives the thumb length 0, so the
track length is 10 - 0 - 20 = -10, and puts the thumb at offset 10 + 45 * (-10) / 100 = 6, which
is not within `effPad .. effPad + trackLength`.  And on `page_example_off` (mode OFF, scrolling
regime) the bar is not placed at all: its offset stays 0, the formula gives 12. -/
theorem lv_page_sb_refresh_thumb_travel_counterexample :
    (page_tiny.sb_mode = lv_page_sb_mode_t.AUTO ∧
      area_get_width page_tiny.scrl > area_get_width page_tiny.cords - 2 * page_tiny.hpad ∧
      area_get_width page_tiny.cords - area_get_width page_tiny.scrl - page_tiny.hpad ≤
        lv_obj_get_x page_tiny ∧
      lv_obj_get_x page_tiny ≤ page_tiny.hpad ∧
      max page_tiny.sb_width page_tiny.hpad = 10 ∧
      area_get_width page_tiny.cords - area_get_width (lv_page_sb_refresh page_tiny).sbh -
        2 * max page_tiny.sb_width page_tiny.hpad = -10 ∧
      (lv_page_sb_refresh page_tiny).sbh.x1 = 6 ∧
      ¬ (10 ≤ (lv_page_sb_refresh page_tiny).sbh.x1 ∧
          (lv_page_sb_refresh page_tiny).sbh.x1 ≤ 10 + -10)) ∧
    (area_get_width page_example_off.scrl >
        area_get_width page_example_off.cords - 2 * page_example_off.hpad ∧
      (lv_page_sb_refresh page_example_off).sbh.x1 = 0 ∧
      max page_example_off.sb_width page_example_off.hpad +
        Int.tdiv (-(lv_obj_get_x page_example_off - page_example_off.hpad) * (200 - 87 - 20))
          (area_get_width page_example_off.scrl + 2 * page_example_off.hpad -
            area_get_width page_example_off.cords) = 12) := by
  decide

/-- C21, amended. Thumb travel: in every mode other than OFF, on an axis in the scrolling regime
`lv_page_sb_refresh` places the thumb at the offset
`effPad + (-(surfacePosition - stylePad)) * trackLength / (contentExtent + 2 * stylePad -
viewportExtent)` with `trackLength = viewportExtent - thumbLength - 2 * effPad`; at
`surfacePosition = stylePad` the offset is exactly `effPad`, at the fully scrolled position
`viewportExtent - contentExtent - stylePad` it is exactly `effPad + trackLength`, and when the
track length is not negative the offset stays within `effPad .. effPad + trackLength` for the
positions in between; the track length is not negative when the viewport extent is at least
`2 * effPad`. -/
theorem lv_page_sb_refresh_thumb_travel (s : Page) (hmode : s.sb_mode ≠ lv_page_sb_mode_t.OFF) :
    (area_get_width s.scrl > area_get_width s.cords - 2 * s.hpad →
      (lv_page_sb_refresh s).sbh.x1 =
        max s.sb_width s.hpad +
          Int.tdiv (-(lv_obj_get_x s - s.hpad) *
              (area_get_width s.cords - area_get_width (lv_page_sb_refresh s).sbh -
                2 * max s.sb_width s.hpad))
            (area_get_width s.scrl + 2 * s.hpad - area_get_width s.cords) ∧
      (lv_obj_get_x s = s.hpad → (lv_page_sb_refresh s).sbh.x1 = max s.sb_width s.hpad) ∧
      (lv_obj_get_x s = area_get_width s.cords - area_get_width s.scrl - s.hpad →
        (lv_page_sb_refresh s).sbh.x1 =
          max s.sb_width s.hpad +
            (area_get_width s.cords - area_get_width (lv_page_sb_refresh s).sbh -
              2 * max s.sb_width s.hpad)) ∧
      (0 ≤ area_get_width s.cords - area_get_width (lv_page_sb_refresh s).sbh -
            2 * max s.sb_width s.hpad →
        area_get_width s.cords - area_get_width s.scrl - s.hpad ≤ lv_obj_get_x s →
        lv_obj_get_x s ≤ s.hpad →
        max s.sb_width s.hpad ≤ (lv_page_sb_refresh s).sbh.x1 ∧
        (lv_page_sb_refresh s).sbh.x1 ≤
          max s.sb_width s.hpad +
            (area_get_width s.cords - area_get_width (lv_page_sb_refresh s).sbh -
              2 * max s.sb_width s.hpad)) ∧
      (0 ≤ area_get_width s.cords → 2 * max s.sb_width s.hpad ≤ area_get_width s.cords →
        0 ≤ area_get_width s.cords - area_get_width (lv_page_sb_refresh s).sbh -
            2 * max s.sb_width s.hpad)) ∧
    (area_get_height s.scrl > area_get_height s.cords - 2 * s.vpad →
      (lv_page_sb_refresh s).sbv.y1 =
        max s.sb_width s.vpad +
          Int.tdiv (-(lv_obj_get_y s - s.vpad) *
              (area_get_height s.cords - area_get_height (lv_page_sb_refresh s).sbv -
                2 * max s.sb_width s.vpad))
            (area_get_height s.scrl + 2 * s.vpad - area_get_height s.cords) ∧
      (lv_obj_get_y s = s.vpad → (lv_page_sb_refresh s).sbv.y1 = max s.sb_width s.vpad) ∧
      (lv_obj_get_y s = area_get_height s.cords - area_get_height s.scrl - s.vpad →
        (lv_page_sb_refresh s).sbv.y1 =
          max s.sb_width s.vpad +
            (area_get_height s.cords - area_get_height (lv_page_sb_refresh s).sbv -
              2 * max s.sb_width s.vpad)) ∧
      (0 ≤ area_get_height s.cords - area_get_height (lv_page_sb_refresh s).sbv -
            2 * max s.sb_width s.vpad →
        area_get_height s.cords - area_get_height s.scrl - s.vpad ≤ lv_obj_get_y s →
        lv_obj_get_y s ≤ s.vpad →
        max s.sb_width s.vpad ≤ (lv_page_sb_refresh s).sbv.y1 ∧
        (lv_page_sb_refresh s).sbv.y1 ≤
          max s.sb_width s.vpad +
            (area_get_height s.cords - area_get_height (lv_page_sb_refresh s).sbv -
              2 * max s.sb_width s.vpad)) ∧
      (0 ≤ area_get_height s.cords → 2 * max s.sb_width s.vpad ≤ area_get_height s.cords →
        0 ≤ area_get_height s.cords - area_get_height (lv_page_sb_refresh s).sbv -
            2 * max s.sb_width s.vpad)) := by
  constructor
  · intro hx
    have h1 := sbh_x1_scrolling s hmode hx
    have hE : 0 < area_get_width s.scrl + 2 * s.hpad - area_get_width s.cords := by omega
    obtain ⟨ha, hb, hc⟩ := thumb_offset_travel (max s.sb_width s.hpad) (lv_obj_get_x s) s.hpad
      (area_get_width s.cords - area_get_width (lv_page_sb_refresh s).sbh -
        2 * max s.sb_width s.hpad)
      (area_get_width s.scrl + 2 * s.hpad - area_get_width s.cords) hE
    refine ⟨h1, ?_, ?_, ?_, ?_⟩
    · intro h; rw [h1]; exact ha h
    · intro h; rw [h1]; exact hb (by omega)
    · intro hT hlo hhi; rw [h1]; exact hc hT (by omega) hhi
    · intro hW hP
      rw [sbh_width_scrolling s hmode hx]
      exact track_length_nonneg _ _ _ hW hP (by omega)
  · intro hy
    have h1 := sbv_y1_scrolling s hmode hy
    have hE : 0 < area_get_height s.scrl + 2 * s.vpad - area_get_height s.cords := by omega
    obtain ⟨ha, hb, hc⟩ := thumb_offset_travel (max s.sb_width s.vpad) (lv_obj_get_y s) s.vpad
      (area_get_height s.cords - area_get_height (lv_page_sb_refresh s).sbv -
        2 * max s.sb_width s.vpad)
      (area_get_height s.scrl + 2 * s.vpad - area_get_height s.cords) hE
    refine ⟨h1, ?_, ?_, ?_, ?_⟩
    · intro h; rw [h1]; exact ha h
    · intro h; rw [h1]; exact hb (by omega)
    · intro hT hlo hhi; rw [h1]; exact hc hT (by omega) hhi
    · intro hW hP
      rw [sbv_height_scrolling s hmode hy]
      exact track_length_nonneg _ _ _ hW hP (by omega)

/-- Witness for C21: on the example page (mode AUTO, content 400 in a viewport of 200, surface at
x = 0 between -205 and 5) the track length is not negative and the horizontal thumb starts within
`effPad .. effPad + trackLength`. -/
theorem lv_page_sb_refresh_thumb_travel_witness :
    page_example.sb_mode ≠ lv_page_sb_mode_t.OFF ∧
    area_get_width page_example.scrl > area_get_width page_example.cords - 2 * page_example.hpad ∧
    max page_example.sb_width page_example.hpad ≤ (lv_page_sb_refresh page_example).sbh.x1 ∧
    (lv_page_sb_refresh page_example).sbh.x1 ≤
      max page_example.sb_width page_example.hpad +
        (area_get_width page_example.cords -
          area_get_width (lv_page_sb_refresh page_example).sbh -
          2 * max page_example.sb_width page_example.hpad) :=
  ⟨by decide, by decide,
    ((lv_page_sb_refresh_thumb_travel page_example (by decide)).1 (by decide)).2.2.2.1
      (by decide) (by decide) (by decide)⟩

/-! ## The two errors of `lv_page_focus` -/

/-- C23. In `lv_page_focus`, `top_err + bot_err = obj_h - page_h` for every surface position;
so for a target not higher than the viewport at most one of the two errors is positive, and the
conditions of the "out on top" and the "out on bottom" branch never hold together. -/
theorem lv_page_focus_errors_sum (s : Page) (obj : area_t) :
    focus_top_err s obj + focus_bot_err s obj = area_get_height obj - area_get_height s.cords ∧
    (area_get_height obj ≤ area_get_height s.cords →
      ¬ (focus_top_err s obj > 0 ∧ focus_bot_err s obj > 0) ∧
      ¬ ((area_get_height obj ≤ area_get_height s.cords ∧ focus_top_err s obj > 0) ∧
          (area_get_height obj ≤ area_get_height s.cords ∧ focus_bot_err s obj > 0))) := by
  have hsum : focus_top_err s obj + focus_bot_err s obj =
      area_get_height obj - area_get_height s.cords := by
    simp only [focus_top_err, focus_bot_err]
    ring
  refine ⟨hsum, fun h => ⟨?_, ?_⟩⟩
  · rintro ⟨h1, h2⟩; omega
  · rintro ⟨⟨-, h1⟩, -, h2⟩; omega

/-- Witness for C23: `obj_inside` (31 high) in the viewport of the example page (100 high). -/
theorem lv_page_focus_errors_sum_witness :
    area_get_height obj_inside ≤ area_get_height page_example.cords ∧
    ¬ (focus_top_err page_example obj_inside > 0 ∧ focus_bot_err page_example obj_inside > 0) :=
  ⟨by decide, ((lv_page_focus_errors_sum page_example obj_inside).2 (by decide)).1⟩

/-- The errors of a target that moved along with the surface to the position `(x, y)`. -/
theorem focus_err_after_move (s : Page) (obj : area_t) (x y : Int) :
    focus_top_err (scrl_move s x y) (child_follow s.scrl (scrl_move s x y).scrl obj) =
      -(y + (obj.y1 - s.scrl.y1)) ∧
    focus_bot_err (scrl_move s x y) (child_follow s.scrl (scrl_move s x y).scrl obj) =
      y + (obj.y1 - s.scrl.y1) + area_get_height obj - area_get_height s.cords ∧
    area_get_height (child_follow s.scrl (scrl_move s x y).scrl obj) = area_get_height obj ∧
    (child_follow s.scrl (scrl_move s x y).scrl obj).y1 - (scrl_move s x y).scrl.y1 =
      obj.y1 - s.scrl.y1 := by
  simp only [focus_top_err, focus_bot_err, child_follow, scrl_move_scrl, lv_obj_get_y,
    area_get_height]
  simp only [scrl_move]
  refine ⟨?_, ?_, ?_, ?_⟩ <;> ring

/-- C24. Focus on a tall target is stable: for a target higher than the viewport and
non-negative vertical paddings, with the surface at the position the first call of
`lv_page_focus` wrote (the target moved along), a second call with `anim_time = 0` takes the same
branch (`top_err < bot_err` holds after the first call exactly when it held before) and writes
the same surface y. -/
theorem lv_page_focus_tall_stable (fuel : Nat) (s : Page) (obj : area_t) (style_scrl_vpad : Int)
    (h : area_get_height obj > area_get_height s.cords)
    (hvs : 0 ≤ style_scrl_vpad) (hvp : 0 ≤ s.vpad) :
    ∃ y, lv_page_focus_y s obj style_scrl_vpad = some y ∧
      lv_page_focus fuel s obj style_scrl_vpad 0 =
        lv_obj_set_pos (fun s1 => lv_scrl_signal fuel s1 lv_signal_t.CORD_CHG) s
          (lv_obj_get_x s) y ∧
      (focus_top_err (scrl_move s (lv_obj_get_x s) y)
            (child_follow s.scrl (scrl_move s (lv_obj_get_x s) y).scrl obj) <
          focus_bot_err (scrl_move s (lv_obj_get_x s) y)
            (child_follow s.scrl (scrl_move s (lv_obj_get_x s) y).scrl obj) ↔
        focus_top_err s obj < focus_bot_err s obj) ∧
      lv_page_focus_y (scrl_move s (lv_obj_get_x s) y)
          (child_follow s.scrl (scrl_move s (lv_obj_get_x s) y).scrl obj) style_scrl_vpad =
        some y ∧
      lv_page_focus fuel (scrl_move s (lv_obj_get_x s) y)
          (child_follow s.scrl (scrl_move s (lv_obj_get_x s) y).scrl obj) style_scrl_vpad 0 =
        lv_obj_set_pos (fun s1 => lv_scrl_signal fuel s1 lv_signal_t.CORD_CHG)
          (scrl_move s (lv_obj_get_x s) y) (lv_obj_get_x (scrl_move s (lv_obj_get_x s) y)) y := by
  have hfocus : ∀ (t : Page) (o : area_t) (y : Int),
      lv_page_focus_y t o style_scrl_vpad = some y →
      lv_page_focus fuel t o style_scrl_vpad 0 =
        lv_obj_set_pos (fun s1 => lv_scrl_signal fuel s1 lv_signal_t.CORD_CHG) t
          (lv_obj_get_x t) y := by
    intro t o y hy
    simp only [lv_page_focus, hy, if_true]
  have key : ∀ y, lv_page_focus_y s obj style_scrl_vpad = some y →
      (focus_top_err (scrl_move s (lv_obj_get_x s) y)
            (child_follow s.scrl (scrl_move s (lv_obj_get_x s) y).scrl obj) <
          focus_bot_err (scrl_move s (lv_obj_get_x s) y)
            (child_follow s.scrl (scrl_move s (lv_obj_get_x s) y).scrl obj) ↔
        focus_top_err s obj < focus_bot_err s obj) ∧
      lv_page_focus_y (scrl_move s (lv_obj_get_x s) y)
          (child_follow s.scrl (scrl_move s (lv_obj_get_x s) y).scrl obj) style_scrl_vpad =
        some y := by
    intro y hy
    obtain ⟨ht, hb, hh, hoff⟩ := focus_err_after_move s obj (lv_obj_get_x s) y
    have hc : (scrl_move s (lv_obj_get_x s) y).cords = s.cords := rfl
    have hv : (scrl_move s (lv_obj_get_x s) y).vpad = s.vpad := rfl
    by_cases hlt : focus_top_err s obj < focus_bot_err s obj
    · have hy1 : y = -(obj.y1 - s.scrl.y1 - style_scrl_vpad - s.vpad) + style_scrl_vpad := by
        simp only [lv_page_focus_y] at hy
        rw [if_pos (Or.inr ⟨h, hlt⟩)] at hy
        exact (Option.some.inj hy).symm
      have hlt1 : focus_top_err (scrl_move s (lv_obj_get_x s) y)
            (child_follow s.scrl (scrl_move s (lv_obj_get_x s) y).scrl obj) <
          focus_bot_err (scrl_move s (lv_obj_get_x s) y)
            (child_follow s.scrl (scrl_move s (lv_obj_get_x s) y).scrl obj) := by
        rw [ht, hb]; omega
      refine ⟨⟨fun _ => hlt, fun _ => hlt1⟩, ?_⟩
      simp only [lv_page_focus_y]
      rw [if_pos (Or.inr ⟨by rw [hh, hc]; exact h, hlt1⟩), hoff, hv]
      rw [hy1]
    · have hy1 : y = -(obj.y1 - s.scrl.y1) + (area_get_height s.cords - area_get_height obj) -
          style_scrl_vpad := by
        simp only [lv_page_focus_y] at hy
        rw [if_neg (by rintro (⟨h3, -⟩ | ⟨-, h3⟩) <;> omega),
          if_pos (Or.inr ⟨h, by omega⟩)] at hy
        exact (Option.some.inj hy).symm
      have hge1 : ¬ focus_top_err (scrl_move s (lv_obj_get_x s) y)
            (child_follow s.scrl (scrl_move s (lv_obj_get_x s) y).scrl obj) <
          focus_bot_err (scrl_move s (lv_obj_get_x s) y)
            (child_follow s.scrl (scrl_move s (lv_obj_get_x s) y).scrl obj) := by
        rw [ht, hb]; omega
      refine ⟨⟨fun h1 => absurd h1 hge1, fun h1 => absurd h1 hlt⟩, ?_⟩
      simp only [lv_page_focus_y]
      rw [if_neg (by
          rintro (⟨h3, -⟩ | ⟨-, h3⟩)
          · rw [hh, hc] at h3; omega
          · exact hge1 h3),
        if_pos (Or.inr ⟨by rw [hh, hc]; exact h, by omega⟩), hoff, hh, hc]
      rw [hy1]
  have hex : ∃ y, lv_page_focus_y s obj style_scrl_vpad = some y := by
    simp only [lv_page_focus_y]
    by_cases hlt : focus_top_err s obj < focus_bot_err s obj
    · rw [if_pos (Or.inr ⟨h, hlt⟩)]; exact ⟨_, rfl⟩
    · rw [if_neg (by rintro (⟨h3, -⟩ | ⟨-, h3⟩) <;> omega), if_pos (Or.inr ⟨h, by omega⟩)]
      exact ⟨_, rfl⟩
  obtain ⟨y, hy⟩ := hex
  obtain ⟨hbranch, hy2⟩ := key y hy
  exact ⟨y, hy, hfocus s obj y hy, hbranch, hy2, hfocus _ _ y hy2⟩

/-- Witness for C24: `obj_tall` on `page_scrolled` with paddings 5: the first call writes -105
and, at that position, the second call writes -105 again. -/
theorem lv_page_focus_tall_stable_witness :
    area_get_height obj_tall > area_get_height page_scrolled.cords ∧
    ∃ y, lv_page_focus_y page_scrolled obj_tall 5 = some y ∧
      lv_page_focus_y (scrl_move page_scrolled (lv_obj_get_x page_scrolled) y)
          (child_follow page_scrolled.scrl
            (scrl_move page_scrolled (lv_obj_get_x page_scrolled) y).scrl obj_tall) 5 =
        some y := by
  refine ⟨by decide, ?_⟩
  obtain ⟨y, h1, -, -, h2, -⟩ :=
    lv_page_focus_tall_stable 0 page_scrolled obj_tall 5 (by decide) (by decide) (by decide)
  exact ⟨y, h1, h2⟩

/-! ## Marked areas cover drawn bars -/

theorem mem_visible_bars (t : Page) (sb : area_t) :
    sb ∈ visible_bars t ↔ (t.sbh_draw = true ∧ sb = t.sbh) ∨ (t.sbv_draw = true ∧ sb = t.sbv) := by
  simp only [visible_bars, List.mem_append]
  cases t.sbh_draw <;> cases t.sbv_draw <;> simp

theorem lv_page_design_sb_eq (t : Page) :
    lv_page_design_sb t = (visible_bars t).map (sb_area_draw t.cords) := by
  cases h1 : t.sbh_draw <;> cases h2 : t.sbv_draw <;>
    simp [lv_page_design_sb, visible_bars, sb_area_draw, h1, h2]

theorem sb_invalidate_inv_areas (t : Page) :
    (sb_invalidate t).inv_areas = t.inv_areas ++ (visible_bars t).map (sb_area_tmp t.cords) := by
  cases h1 : t.sbh_draw <;> cases h2 : t.sbv_draw <;>
    simp [sb_invalidate, visible_bars, h1, h2]

theorem visible_bars_sb_invalidate (t : Page) : visible_bars (sb_invalidate t) = visible_bars t := by
  simp only [visible_bars, sb_invalidate_sbh, sb_invalidate_sbv, sb_invalidate_sbh_draw,
    sb_invalidate_sbv_draw]

/-- Each area passed to `lv_inv_area` covers the rectangle drawn for the same bar when the page's
far corner is not before its origin. -/
theorem sb_area_tmp_contains_draw (page sb : area_t) (hx : page.x1 ≤ page.x2)
    (hy : page.y1 ≤ page.y2) : area_contains (sb_area_tmp page sb) (sb_area_draw page sb) := by
  simp only [area_contains, sb_area_tmp, sb_area_draw]
  refine ⟨?_, ?_, ?_, ?_⟩ <;> omega

/-- The state in which `lv_page_sb_refresh` marks the old areas: both flags set in mode ON
(lines 599-602). -/
theorem lv_page_sb_refresh_inv_areas (s : Page) (hmode : s.sb_mode ≠ lv_page_sb_mode_t.OFF) :
    ∃ old : List area_t,
      (∀ sb ∈ visible_bars s, sb ∈ old) ∧ (∀ sb ∈ old, sb = s.sbh ∨ sb = s.sbv) ∧
      (lv_page_sb_refresh s).inv_areas =
        s.inv_areas ++
          (old.map (sb_area_tmp s.cords) ++
            (visible_bars (lv_page_sb_refresh s)).map (sb_area_tmp s.cords)) := by
  by_cases hon : s.sb_mode = lv_page_sb_mode_t.ON
  · refine ⟨visible_bars { s with sbh_draw := true, sbv_draw := true }, ?_, ?_, ?_⟩
    · intro sb hsb
      rw [mem_visible_bars] at hsb ⊢
      rcases hsb with ⟨-, h⟩ | ⟨-, h⟩
      · exact Or.inl ⟨rfl, h⟩
      · exact Or.inr ⟨rfl, h⟩
    · intro sb hsb
      rw [mem_visible_bars] at hsb
      rcases hsb with ⟨-, h⟩ | ⟨-, h⟩
      · exact Or.inl h
      · exact Or.inr h
    · simp only [lv_page_sb_refresh, if_neg hmode, if_pos hon, sb_invalidate_inv_areas,
        visible_bars_sb_invalidate, sb_refresh_ver_inv_areas, sb_refresh_hor_inv_areas,
        sb_refresh_ver_cords, sb_refresh_hor_cords, sb_invalidate_cords, List.append_assoc]
  · refine ⟨visible_bars s, fun sb h => h, ?_, ?_⟩
    · intro sb hsb
      rw [mem_visible_bars] at hsb
      rcases hsb with ⟨-, h⟩ | ⟨-, h⟩
      · exact Or.inl h
      · exact Or.inr h
    · simp only [lv_page_sb_refresh, if_neg hmode, if_neg hon, sb_invalidate_inv_areas,
        visible_bars_sb_invalidate, sb_refresh_ver_inv_areas, sb_refresh_hor_inv_areas,
        sb_refresh_ver_cords, sb_refresh_hor_cords, sb_invalidate_cords, List.append_assoc]

/-- C25. For every page whose absolute bounds satisfy `x2 >= x1` and `y2 >= y1`: the areas that
one call of `lv_page_sb_refresh` passes to `lv_inv_area` are appended to the record, each of them
is the converted rectangle of a bar (as it was before or as it is after the call) and covers the
rectangle `lv_page_design` draws for that bar rectangle; outside mode OFF every rectangle that
`lv_page_design` draws after the call, and every one it drew before, is covered by one of the
areas marked in the call. -/
theorem lv_page_sb_refresh_marks_cover (s : Page) (hx : s.cords.x1 ≤ s.cords.x2)
    (hy : s.cords.y1 ≤ s.cords.y2) :
    ∃ marked : List area_t,
      (lv_page_sb_refresh s).inv_areas = s.inv_areas ++ marked ∧
      (∀ m ∈ marked, ∃ sb,
        (sb = s.sbh ∨ sb = s.sbv ∨
          sb = (lv_page_sb_refresh s).sbh ∨ sb = (lv_page_sb_refresh s).sbv) ∧
        m = sb_area_tmp s.cords sb ∧ area_contains m (sb_area_draw s.cords sb)) ∧
      (s.sb_mode ≠ lv_page_sb_mode_t.OFF →
        (∀ d ∈ lv_page_design_sb (lv_page_sb_refresh s), ∃ m ∈ marked, area_contains m d) ∧
        (∀ d ∈ lv_page_design_sb s, ∃ m ∈ marked, area_contains m d)) := by
  by_cases hmode : s.sb_mode = lv_page_sb_mode_t.OFF
  · refine ⟨[], ?_, ?_, fun h => absurd hmode h⟩
    · simp [lv_page_sb_refresh, hmode]
    · intro m hm
      simp at hm
  · obtain ⟨old, hold, holdsub, hinv⟩ := lv_page_sb_refresh_inv_areas s hmode
    refine ⟨_, hinv, ?_, fun _ => ⟨?_, ?_⟩⟩
    · intro m hm
      rw [List.mem_append, List.mem_map, List.mem_map] at hm
      rcases hm with ⟨sb, hsb, rfl⟩ | ⟨sb, hsb, rfl⟩
      · refine ⟨sb, ?_, rfl, sb_area_tmp_contains_draw _ _ hx hy⟩
        rcases holdsub sb hsb with h | h
        · exact Or.inl h
        · exact Or.inr (Or.inl h)
      · refine ⟨sb, ?_, rfl, sb_area_tmp_contains_draw _ _ hx hy⟩
        rw [mem_visible_bars] at hsb
        rcases hsb with ⟨-, h⟩ | ⟨-, h⟩
        · exact Or.inr (Or.inr (Or.inl h))
        · exact Or.inr (Or.inr (Or.inr h))
    · intro d hd
      rw [lv_page_design_sb_eq, lv_page_sb_refresh_cords, List.mem_map] at hd
      obtain ⟨sb, hsb, rfl⟩ := hd
      exact ⟨sb_area_tmp s.cords sb,
        List.mem_append_right _ (List.mem_map_of_mem _ hsb),
        sb_area_tmp_contains_draw _ _ hx hy⟩
    · intro d hd
      rw [lv_page_design_sb_eq, List.mem_map] at hd
      obtain ⟨sb, hsb, rfl⟩ := hd
      exact ⟨sb_area_tmp s.cords sb,
        List.mem_append_left _ (List.mem_map_of_mem _ (hold sb hsb)),
        sb_area_tmp_contains_draw _ _ hx hy⟩

/-- Witness for C25: on `page_shifted` the call marks (20, 110)-(305, 218), which covers the
horizontal bar drawn at (20, 110)-(106, 119). -/
theorem lv_page_sb_refresh_marks_cover_witness :
    page_shifted.cords.x1 ≤ page_shifted.cords.x2 ∧
    page_shifted.cords.y1 ≤ page_shifted.cords.y2 ∧
    lv_page_design_sb (lv_page_sb_refresh page_shifted) = [⟨20, 110, 106, 119⟩] ∧
    ∃ marked : List area_t,
      (lv_page_sb_refresh page_shifted).inv_areas = page_shifted.inv_areas ++ marked ∧
      ∀ d ∈ lv_page_design_sb (lv_page_sb_refresh page_shifted),
        ∃ m ∈ marked, area_contains m d := by
  refine ⟨by decide, by decide, by decide, ?_⟩
  obtain ⟨marked, h1, -, h3⟩ :=
    lv_page_sb_refresh_marks_cover page_shifted (by decide) (by decide)
  exact ⟨marked, h1, (h3 (by decide)).1⟩

end LvPage

namespace LvSlider

open LvPage

/-! ## Pointer mapping -/

theorem c_div_of_ne (a b : Int) (h : b ≠ 0) : c_div a b = some (Int.tdiv a b) := by
  simp [c_div, h]

/-- The conversion to `int16_t` gives a value within `-32768 .. 32767` that differs from the
argument by a multiple of `2^16`. -/
theorem to_int16_spec (v : Int) :
    -32768 ≤ to_int16 v ∧ to_int16 v ≤ 32767 ∧ (v - to_int16 v) % 65536 = 0 := by
  unfold to_int16
  omega

/-- The value of the `LV_SIGNAL_PRESSING` branch on a horizontal slider (lines 123-124): the
quotient, converted to `int16_t`. -/
theorem lv_slider_pressing_tmp_horizontal (s : Slider) (p : point_t)
    (h : area_get_width s.cords > area_get_height s.cords) :
    lv_slider_pressing_tmp s p =
      some (to_int16 (Int.tdiv
        ((p.x - (s.cords.x1 + Int.tdiv (area_get_height s.cords) 2)) *
          (s.max_value - s.min_value + 1))
        (area_get_width s.cords - area_get_height s.cords))) := by
  have hs : signal_horizontal s = true := by simp [signal_horizontal, h]
  simp only [lv_slider_pressing_tmp, hs, if_true, c_div_of_ne _ _
    (show area_get_width s.cords - area_get_height s.cords ≠ 0 by omega), Option.map_some']

/-- The value of the `LV_SIGNAL_PRESSING` branch on a vertical slider (lines 126-128): the
quotient converted to `int16_t`, subtracted from `max_value`, converted to `int16_t`. -/
theorem lv_slider_pressing_vertical (s : Slider) (p : point_t)
    (h : area_get_height s.cords > area_get_width s.cords) :
    lv_slider_pressing_tmp s p =
      some (to_int16 (s.max_value - to_int16 (Int.tdiv
        ((p.y - (s.cords.y1 + Int.tdiv (area_get_width s.cords) 2)) *
          (s.max_value - s.min_value + 1))
        (area_get_height s.cords - area_get_width s.cords)))) := by
  have hs : signal_horizontal s = false := by
    simp only [signal_horizontal, decide_eq_false_iff_not]; omega
  simp only [lv_slider_pressing_tmp, hs, c_div_of_ne _ _
    (show area_get_height s.cords - area_get_width s.cords ≠ 0 by omega), Option.map_some']
  rfl

/-- C14, the code at a failing input. On the square slider `slider_square` (20 x 20)
`lv_slider_design` takes the horizontal branch (`slider_w >= slider_h`, lines 263 and 277), but
`lv_slider_signal` tests `w > h` (line 122) and takes the vertical branch, where it divides by
`h - w = 0`. -/
theorem lv_slider_signal_square_divergence :
    area_get_width slider_square.cords = 20 ∧ area_get_height slider_square.cords = 20 ∧
    design_horizontal slider_square = true ∧
    signal_horizontal slider_square = false ∧
    lv_slider_pressing_tmp slider_square ⟨10, 10⟩ = none ∧
    lv_slider_signal slider_square (lv_signal_t.PRESSING ⟨10, 10⟩) = none := by
  decide

/-! ## Gestures -/

theorem slider_run_append (l1 l2 : List lv_signal_t) :
    ∀ s : Slider, slider_run s (l1 ++ l2) = (slider_run s l1).bind fun s1 => slider_run s1 l2 := by
  induction l1 with
  | nil => intro s; simp [slider_run]
  | cons a l ih =>
    intro s
    simp only [List.cons_append, slider_run]
    cases lv_slider_signal s a with
    | none => simp
    | some s1 => simp [ih s1]

/-- `lv_bar_set_value` on a value within the range stores it. -/
theorem lv_bar_set_value_in_range (s : Slider) (v : Int) (h1 : s.min_value ≤ v)
    (h2 : v ≤ s.max_value) : lv_bar_set_value s v = { s with act_value := v } := by
  simp only [lv_bar_set_value]
  rw [if_neg (by omega), if_neg (by omega)]

/-- `lv_bar_set_value` only writes the value and, for a non-empty range, keeps it within the
range. -/
theorem lv_bar_set_value_spec (s : Slider) (v : Int) :
    lv_bar_set_value s v = { s with act_value := (lv_bar_set_value s v).act_value } ∧
    (s.min_value ≤ s.max_value →
      s.min_value ≤ (lv_bar_set_value s v).act_value ∧
      (lv_bar_set_value s v).act_value ≤ s.max_value) := by
  refine ⟨rfl, ?_⟩
  intro h
  simp only [lv_bar_set_value]
  split_ifs <;> constructor <;> omega

/-- One `LV_SIGNAL_PRESSING` is defined on every slider that is not square. -/
theorem lv_slider_pressing_defined (s : Slider) (p : point_t)
    (h : area_get_width s.cords ≠ area_get_height s.cords) :
    ∃ s1, lv_slider_signal s (lv_signal_t.PRESSING p) = some s1 := by
  by_cases hw : area_get_width s.cords > area_get_height s.cords
  · simp only [lv_slider_signal, lv_slider_pressing_tmp_horizontal s p hw, Option.map_some']
    exact ⟨_, rfl⟩
  · simp only [lv_slider_signal, lv_slider_pressing_vertical s p (by omega), Option.map_some']
    exact ⟨_, rfl⟩

/-- One `LV_SIGNAL_PRESSING`, when it returns, has only written a value within the range. -/
theorem lv_slider_pressing_frame (s s1 : Slider) (p : point_t)
    (hr : s.min_value ≤ s.max_value)
    (h : lv_slider_signal s (lv_signal_t.PRESSING p) = some s1) :
    s1 = { s with act_value := s1.act_value } ∧
    s.min_value ≤ s1.act_value ∧ s1.act_value ≤ s.max_value := by
  simp only [lv_slider_signal, Option.map_eq_some'] at h
  obtain ⟨tmp, -, rfl⟩ := h
  exact ⟨(lv_bar_set_value_spec s tmp).1, (lv_bar_set_value_spec s tmp).2 hr⟩

/-- A run of `LV_SIGNAL_PRESSING` signals, when it returns, has only written the value and left
it within the range. -/
theorem slider_run_pressing_frame (ps : List point_t) :
    ∀ s s1 : Slider, s.min_value ≤ s.act_value → s.act_value ≤ s.max_value →
      slider_run s (ps.map lv_signal_t.PRESSING) = some s1 →
      s1 = { s with act_value := s1.act_value } ∧
      s.min_value ≤ s1.act_value ∧ s1.act_value ≤ s.max_value := by
  induction ps with
  | nil =>
    intro s s1 h1 h2 h
    simp only [List.map_nil, slider_run, Option.some.injEq] at h
    subst h
    exact ⟨rfl, h1, h2⟩
  | cons p ps ih =>
    intro s s1 h1 h2 h
    simp only [List.map_cons, slider_run, Option.bind_eq_some] at h
    obtain ⟨s0, h0, hrest⟩ := h
    obtain ⟨hf, ha, hb⟩ := lv_slider_pressing_frame s s0 p (by omega) h0
    have hmin : s0.min_value = s.min_value := by rw [hf]
    have hmax : s0.max_value = s.max_value := by rw [hf]
    obtain ⟨hf1, ha1, hb1⟩ := ih s0 s1 (by omega) (by omega) hrest
    refine ⟨?_, by omega, by omega⟩
    rw [hf1, hf]

/-- A run of `LV_SIGNAL_PRESSING` signals returns on every slider that is not square. -/
theorem slider_run_pressing_defined (ps : List point_t) :
    ∀ s : Slider, s.min_value ≤ s.max_value →
      (area_get_width s.cords ≠ area_get_height s.cords ∨ ps = []) →
      ∃ s1, slider_run s (ps.map lv_signal_t.PRESSING) = some s1 := by
  induction ps with
  | nil => intro s _ _; exact ⟨s, rfl⟩
  | cons p ps ih =>
    intro s hr h
    have hne : area_get_width s.cords ≠ area_get_height s.cords := by
      rcases h with h | h
      · exact h
      · simp at h
    obtain ⟨s0, h0⟩ := lv_slider_pressing_defined s p hne
    obtain ⟨hf, -, -⟩ := lv_slider_pressing_frame s s0 p hr h0
    have hc : s0.cords = s.cords := by rw [hf]
    have hmin : s0.min_value = s.min_value := by rw [hf]
    have hmax : s0.max_value = s.max_value := by rw [hf]
    obtain ⟨s1, h1⟩ := ih s0 (by omega) (Or.inl (by rw [hc]; exact hne))
    exact ⟨s1, by simp [slider_run, h0, h1]⟩

/-- After `LV_SIGNAL_PRESSED` and any number of `LV_SIGNAL_PRESSING` signals, when they return,
only the value and the snapshot have been written: the snapshot is the value at the press, the
value is within the range. -/
theorem slider_run_pressed_pressing (s s1 : Slider) (ps : List point_t)
    (hmin : s.min_value ≤ s.act_value) (hmax : s.act_value ≤ s.max_value)
    (h : slider_run s (lv_signal_t.PRESSED :: ps.map lv_signal_t.PRESSING) = some s1) :
    s1 = { s with act_value := s1.act_value, tmp_value := s.act_value } ∧
    s.min_value ≤ s1.act_value ∧ s1.act_value ≤ s.max_value := by
  simp only [slider_run, lv_slider_signal, Option.some_bind, lv_bar_get_value] at h
  obtain ⟨hf, ha, hb⟩ :=
    slider_run_pressing_frame ps { s with tmp_value := s.act_value } s1 hmin hmax h
  exact ⟨hf, ha, hb⟩

/-- `LV_SIGNAL_PRESSED` followed by `LV_SIGNAL_PRESSING` signals returns on every slider that is
not square. -/
theorem slider_run_pressed_pressing_defined (s : Slider) (ps : List point_t)
    (hr : s.min_value ≤ s.max_value)
    (h : area_get_width s.cords ≠ area_get_height s.cords ∨ ps = []) :
    ∃ s1, slider_run s (lv_signal_t.PRESSED :: ps.map lv_signal_t.PRESSING) = some s1 := by
  simp only [slider_run, lv_slider_signal, Option.some_bind]
  exact slider_run_pressing_defined ps _ hr h

/-- Where the gesture returns, PressLost restores the value: for a slider whose value is within
its range and every sequence Pressed, Pressing(p1), ..., Pressing(pn), PressLost with n >= 0 and
any points, a returned state holds the value the slider had when Pressed was delivered; and the
sequence returns on every slider that is not square. -/
theorem slider_press_lost_restores (s : Slider) (ps : List point_t)
    (hmin : s.min_value ≤ s.act_value) (hmax : s.act_value ≤ s.max_value) :
    (area_get_width s.cords ≠ area_get_height s.cords ∨ ps = [] →
      ∃ s2, slider_run s
        (lv_signal_t.PRESSED :: (ps.map lv_signal_t.PRESSING ++ [lv_signal_t.PRESS_LOST])) =
          some s2) ∧
    ∀ s2, slider_run s
        (lv_signal_t.PRESSED :: (ps.map lv_signal_t.PRESSING ++ [lv_signal_t.PRESS_LOST])) =
          some s2 →
      lv_bar_get_value s2 = lv_bar_get_value s := by
  have happ := slider_run_append (lv_signal_t.PRESSED :: ps.map lv_signal_t.PRESSING)
    [lv_signal_t.PRESS_LOST] s
  rw [List.cons_append] at happ
  constructor
  · intro hne
    obtain ⟨s1, h1⟩ := slider_run_pressed_pressing_defined s ps (by omega) hne
    rw [happ, h1]
    exact ⟨_, rfl⟩
  · intro s2 h2
    rw [happ, Option.bind_eq_some] at h2
    obtain ⟨s1, h1, hl⟩ := h2
    obtain ⟨hf, -, -⟩ := slider_run_pressed_pressing s s1 ps hmin hmax h1
    simp only [slider_run, lv_slider_signal, Option.some_bind, Option.some.injEq] at hl
    subst hl
    have ht : s1.tmp_value = s.act_value := by rw [hf]
    have h3 : s1.min_value = s.min_value := by rw [hf]
    have h4 : s1.max_value = s.max_value := by rw [hf]
    rw [ht, lv_bar_set_value_in_range s1 s.act_value (by omega) (by omega)]
    rfl

/-- The example slider (value 30) pressed, dragged to x = 60 and far beyond the right end, then
the press is lost: the value is 30 again. -/
theorem slider_press_lost_restores_example :
    slider_example.min_value ≤ slider_example.act_value ∧
    slider_example.act_value ≤ slider_example.max_value ∧
    slider_run slider_example
        (lv_signal_t.PRESSED ::
          ([⟨60, 5⟩, ⟨300, 5⟩].map lv_signal_t.PRESSING ++ [lv_signal_t.PRESS_LOST])) =
      some { slider_example with tmp_value := 30 } ∧
    lv_bar_get_value { slider_example with tmp_value := 30 } =
      lv_bar_get_value slider_example :=
  ⟨by decide, by decide, by decide,
    (slider_press_lost_restores slider_example [⟨60, 5⟩, ⟨300, 5⟩] (by decide) (by decide)).2
      _ (by decide)⟩

/-- Where the gesture returns, Released commits: for a slider with a registered callback whose
value is within its range and every gesture Pressed, Pressing*, Released, the callback has not
been invoked after Pressed and the Pressing signals (whatever their number), and Released invokes
it once, leaves the value unchanged and sets the snapshot `tmp_value` to it; and the gesture
returns on every slider that is not square. -/
theorem slider_released_commits (s : Slider) (ps : List point_t) (hcb : s.cb = true)
    (hmin : s.min_value ≤ s.act_value) (hmax : s.act_value ≤ s.max_value) :
    (area_get_width s.cords ≠ area_get_height s.cords ∨ ps = [] →
      ∃ s2, slider_run s
        (lv_signal_t.PRESSED :: (ps.map lv_signal_t.PRESSING ++ [lv_signal_t.RELEASED])) =
          some s2) ∧
    ∀ s1, slider_run s (lv_signal_t.PRESSED :: ps.map lv_signal_t.PRESSING) = some s1 →
      s1.cb_calls = s.cb_calls ∧
      ∃ s2, lv_slider_signal s1 lv_signal_t.RELEASED = some s2 ∧
        slider_run s
          (lv_signal_t.PRESSED :: (ps.map lv_signal_t.PRESSING ++ [lv_signal_t.RELEASED])) =
            some s2 ∧
        s2.cb_calls = s.cb_calls + 1 ∧
        lv_bar_get_value s2 = lv_bar_get_value s1 ∧
        s2.tmp_value = lv_bar_get_value s2 := by
  have happ := slider_run_append (lv_signal_t.PRESSED :: ps.map lv_signal_t.PRESSING)
    [lv_signal_t.RELEASED] s
  rw [List.cons_append] at happ
  have hrel : ∀ s1, slider_run s (lv_signal_t.PRESSED :: ps.map lv_signal_t.PRESSING) = some s1 →
      s1.cb_calls = s.cb_calls ∧
      lv_slider_signal s1 lv_signal_t.RELEASED =
        some { s1 with tmp_value := s1.act_value, cb_calls := s.cb_calls + 1 } := by
    intro s1 h1
    obtain ⟨hf, ha, hb⟩ := slider_run_pressed_pressing s s1 ps hmin hmax h1
    have h3 : s1.min_value = s.min_value := by rw [hf]
    have h4 : s1.max_value = s.max_value := by rw [hf]
    have h5 : s1.cb = true := by rw [hf]; exact hcb
    have h6 : s1.cb_calls = s.cb_calls := by rw [hf]
    refine ⟨h6, ?_⟩
    simp only [lv_slider_signal, lv_bar_get_value]
    rw [lv_bar_set_value_in_range _ s1.act_value (by simp only; omega) (by simp only; omega)]
    simp [h5, h6]
  constructor
  · intro hne
    obtain ⟨s1, h1⟩ := slider_run_pressed_pressing_defined s ps (by omega) hne
    rw [happ, h1]
    exact ⟨{ s1 with tmp_value := s1.act_value, cb_calls := s.cb_calls + 1 },
      by simp only [Option.some_bind, slider_run, (hrel s1 h1).2]⟩
  · intro s1 h1
    obtain ⟨hc, hr⟩ := hrel s1 h1
    refine ⟨hc, _, hr, ?_, rfl, rfl, rfl⟩
    rw [happ, h1]
    simp only [Option.some_bind, slider_run, hr]

/-- The example slider (callback registered, value 30) pressed, dragged to x = 60 and x = 70 and
released: one invocation, value 75 committed. -/
theorem slider_released_commits_example :
    slider_example.cb = true ∧
    ∃ s2, slider_run slider_example
        (lv_signal_t.PRESSED ::
          ([⟨60, 5⟩, ⟨70, 5⟩].map lv_signal_t.PRESSING ++ [lv_signal_t.RELEASED])) = some s2 ∧
      s2.cb_calls = slider_example.cb_calls + 1 ∧ s2.tmp_value = lv_bar_get_value s2 := by
  refine ⟨by decide, ?_⟩
  obtain ⟨-, h⟩ := slider_released_commits slider_example [⟨60, 5⟩, ⟨70, 5⟩] (by decide)
    (by decide) (by decide)
  obtain ⟨-, s2, -, hrun, hcalls, -, htmp⟩ := h _ (by decide :
    slider_run slider_example
      (lv_signal_t.PRESSED :: [⟨60, 5⟩, ⟨70, 5⟩].map lv_signal_t.PRESSING) =
        some { slider_example with act_value := 75, tmp_value := 30 })
  exact ⟨s2, hrun, hcalls, htmp⟩

/-! ## Drawing -/

/-- C17, the code at a failing input. On `slider_offset` (100 x 20, range 10 .. 110, paddings 0)
the track is (0, 0)-(99, 19) with extent 100.  At the minimum value 10 `lv_slider_design` draws
the indicator (0, 0)-(10, 19), `x2 - x1 = 100 * 10 / 100 = 10` instead of
`100 * (10 - 10) / 100 = 0`; at the maximum value 110 it draws (0, 0)-(110, 19), beyond the
track: line 264 multiplies by `act_value`, not by `act_value - min_value`. -/
theorem lv_slider_design_indicator_divergence :
    slider_offset.min_value < slider_offset.max_value ∧
    lv_bar_get_value slider_offset = slider_offset.min_value ∧
    lv_bar_get_value slider_offset_max = slider_offset_max.max_value ∧
    Option.map slider_draw_t.area_bar (lv_slider_design slider_offset) =
      some ⟨0, 0, 99, 19⟩ ∧
    Option.map slider_draw_t.area_indic (lv_slider_design slider_offset) =
      some ⟨0, 0, 10, 19⟩ ∧
    Option.map slider_draw_t.area_indic (lv_slider_design slider_offset_max) =
      some ⟨0, 0, 110, 19⟩ ∧
    Int.tdiv (100 * (lv_bar_get_value slider_offset - slider_offset.min_value))
      (slider_offset.max_value - slider_offset.min_value) = 0 := by
  decide

/-! ## Extended draw size -/

theorem MATH_MIN_eq_min (a b : Int) : MATH_MIN a b = min a b := by
  unfold MATH_MIN
  split_ifs with h
  · exact (min_eq_left (le_of_lt h)).symm
  · exact (min_eq_right (not_lt.mp h)).symm

/-- C18. Extended draw size: `lv_slider_signal` returns from `LV_SIGNAL_REFR_EXT_SIZE` with
`ext_size` equal to the maximum of its previous value and `min (width, height)` and nothing else
changed; so it is never lowered and is at least the knob diameter. -/
theorem lv_slider_signal_refr_ext_size (s : Slider) :
    ∃ s1, lv_slider_signal s lv_signal_t.REFR_EXT_SIZE = some s1 ∧
      s1.ext_size = max s.ext_size (min (area_get_width s.cords) (area_get_height s.cords)) ∧
      s1 = { s with ext_size := s1.ext_size } ∧
      s.ext_size ≤ s1.ext_size ∧
      min (area_get_width s.cords) (area_get_height s.cords) ≤ s1.ext_size := by
  have hm := MATH_MIN_eq_min (area_get_width s.cords) (area_get_height s.cords)
  by_cases hlt : s.ext_size < min (area_get_width s.cords) (area_get_height s.cords)
  · have h1 : slider_refr_ext_size s =
        { s with ext_size := min (area_get_width s.cords) (area_get_height s.cords) } := by
      simp only [slider_refr_ext_size, hm, if_pos hlt]
    refine ⟨slider_refr_ext_size s, rfl, ?_, ?_, ?_, ?_⟩ <;> rw [h1] <;> simp only <;> omega
  · have h1 : slider_refr_ext_size s = s := by
      simp only [slider_refr_ext_size, hm, if_neg hlt]
    refine ⟨slider_refr_ext_size s, rfl, ?_, ?_, ?_, ?_⟩ <;> rw [h1] <;> omega

/-! ## Shape of the pointer mapping -/

end LvSlider
